import Mathlib

/-!
Verification of the tiflis-code reverse-tunnel core (`apps/tiflis-tunnel`).

The development shallowly embeds the Rust source:

* `tunnel-core/src/protocol.rs` — the tagged `Message` union (JSON maps are
  modelled as association lists in serialization order, `Uuid` as its
  hyphenated string form, machine integers as `Nat`);
* `tunnel-core/src/codec.rs` — `encode_message` / `decode_message` /
  `decode_body`, with `serde_json` reproduced as an executable printer
  (`printMessage`) and recursive-descent parser (`parseMessage`) of the
  compact JSON that `serde_json` emits for this data model;
* `tunnel-core/src/quic.rs` — `recv_message` over a byte stream;
* `tunnel-server/src/registry.rs` — the workstation registry; `Instant` is
  modelled by an explicit `now : Nat` argument at every call the source
  makes to `Instant::now()`, and `elapsed` by truncated subtraction;
* `tunnel-server/src/server.rs` — the handshake dispatch of
  `handle_connection` and the registry transitions it performs when the
  workstation-owned inbound loop ends;
* `tunnel-server/src/proxy.rs` — the unary HTTP relay, with the outcomes of
  the awaited transport operations supplied as an explicit environment;
* `tunnel-client/src/client.rs` — the inbound-substream dispatch;
* `tunnel-client/src/reconnect.rs` — the backoff strategy (durations in
  milliseconds).

Connections (`quinn::Connection`) are opaque to all of this code, so they are
modelled by a type parameter `Conn`.
-/

set_option maxHeartbeats 1000000

namespace TiflisTunnel

/-! ## Protocol data model (tunnel-core/src/protocol.rs) -/

/-- Headers maps (`HashMap<String,String>`) in the order the serializer
emits their entries. -/
abbrev Headers := List (String × String)

/-- Field set of the `register` variant. -/
structure RegisterMessage where
  api_key : String
  workstation_id : String
deriving DecidableEq

/-- Field set of the `registered` variant. -/
structure RegisteredMessage where
  url : String
deriving DecidableEq

/-- Field set of the `reconnect` variant. -/
structure ReconnectMessage where
  api_key : String
  workstation_id : String
  session_ticket : Option String
deriving DecidableEq

/-- Field set of the `ping` variant. -/
structure PingMessage where
  timestamp : Nat
deriving DecidableEq

/-- Field set of the `pong` variant. -/
structure PongMessage where
  timestamp : Nat
deriving DecidableEq

/-- Field set of the `error` variant. -/
structure ErrorMessage where
  code : String
  message : String
deriving DecidableEq

/-- Field set of the `http_request` variant; `body` is the optional base64
string, omitted from the JSON when absent. -/
structure HttpRequestMessage where
  stream_id : String
  method : String
  path : String
  headers : Headers
  body : Option String
deriving DecidableEq

/-- Field set of the `http_response` variant. -/
structure HttpResponseMessage where
  stream_id : String
  status : Nat
  headers : Headers
  body : Option String
deriving DecidableEq

/-- Field set of the `ws_open` variant. -/
structure WsOpenMessage where
  stream_id : String
  path : String
  headers : Headers
deriving DecidableEq

/-- Field set of the `ws_data` variant. -/
structure WsDataMessage where
  stream_id : String
  data : String
  is_binary : Bool
deriving DecidableEq

/-- Field set of the `ws_close` variant; absent options serialize as `null`. -/
structure WsCloseMessage where
  stream_id : String
  code : Option Nat
  reason : Option String
deriving DecidableEq

/-- Field set of the `sse_open` variant. -/
structure SseOpenMessage where
  stream_id : String
  method : String
  path : String
  headers : Headers
deriving DecidableEq

/-- Field set of the `sse_headers` variant. -/
structure SseHeadersMessage where
  stream_id : String
  status : Nat
  headers : Headers
deriving DecidableEq

/-- Field set of the `sse_data` variant. -/
structure SseDataMessage where
  stream_id : String
  data : String
deriving DecidableEq

/-- Field set of the `sse_close` variant; absent `error` serializes as `null`. -/
structure SseCloseMessage where
  stream_id : String
  error : Option String
deriving DecidableEq

/-- The wire protocol's tagged union (`enum Message`). -/
inductive Message where
  | Register (m : RegisterMessage)
  | Registered (m : RegisteredMessage)
  | Reconnect (m : ReconnectMessage)
  | Ping (m : PingMessage)
  | Pong (m : PongMessage)
  | Error (m : ErrorMessage)
  | HttpRequest (m : HttpRequestMessage)
  | HttpResponse (m : HttpResponseMessage)
  | WsOpen (m : WsOpenMessage)
  | WsData (m : WsDataMessage)
  | WsClose (m : WsCloseMessage)
  | SseOpen (m : SseOpenMessage)
  | SseHeaders (m : SseHeadersMessage)
  | SseData (m : SseDataMessage)
  | SseClose (m : SseCloseMessage)
deriving DecidableEq

/-! ## Workstation registry (tunnel-server/src/registry.rs) -/

/-- The per-entry state machine (`enum WorkstationState`). -/
inductive WorkstationState where
  | Active
  | Reconnecting (since : Nat)
deriving DecidableEq

/-- One registry entry (`struct WorkstationInfo`). -/
structure WorkstationInfo (Conn : Type) where
  id : String
  connection : Conn
  registered_at : Nat
  state : WorkstationState
deriving DecidableEq

/-- The registry (`struct WorkstationRegistry`): the `HashMap` is modelled as
an association list keyed by the workstation id. -/
structure WorkstationRegistry (Conn : Type) where
  workstations : List (String × WorkstationInfo Conn)
  grace_period : Nat
deriving DecidableEq

namespace WorkstationRegistry

variable {Conn : Type}

/-- `WorkstationRegistry::new`. -/
def new (grace_period : Nat) : WorkstationRegistry Conn :=
  { workstations := [], grace_period := grace_period }

/-- `WorkstationRegistry::register`; `now` is the `Instant::now()` the source
stores into `registered_at`. -/
def register (r : WorkstationRegistry Conn) (id : String) (connection : Conn)
    (now : Nat) : Except String (WorkstationRegistry Conn) :=
  if r.workstations.any (fun p => p.1 == id) then
    .error ("workstation " ++ id ++ " already registered")
  else
    .ok { r with
      workstations :=
        r.workstations ++ [(id, ⟨id, connection, now, .Active⟩)] }

/-- `WorkstationRegistry::get`. -/
def get (r : WorkstationRegistry Conn) (id : String) :
    Option (WorkstationInfo Conn) :=
  (r.workstations.find? (fun p => p.1 == id)).map (·.2)

/-- `WorkstationRegistry::mark_reconnecting`; `now` is the `Instant::now()`
stored into the `Reconnecting` state. -/
def mark_reconnecting (r : WorkstationRegistry Conn) (id : String) (now : Nat) :
    WorkstationRegistry Conn :=
  { r with
    workstations := r.workstations.map fun p =>
      if p.1 == id then (p.1, { p.2 with state := .Reconnecting now }) else p }

/-- `WorkstationRegistry::reconnect`; `since.elapsed()` is `now - since`. -/
def reconnect (r : WorkstationRegistry Conn) (id : String) (connection : Conn)
    (now : Nat) : Except String (WorkstationRegistry Conn) :=
  match r.get id with
  | none => .error ("workstation " ++ id ++ " not found")
  | some info =>
    if (match info.state with
        | .Reconnecting since => decide (r.grace_period < now - since)
        | .Active => false) then
      .error "grace period expired"
    else
      .ok { r with
        workstations := r.workstations.map fun p =>
          if p.1 == id then
            (p.1, { p.2 with connection := connection, state := .Active })
          else p }

/-- `WorkstationRegistry::unregister`. -/
def unregister (r : WorkstationRegistry Conn) (id : String) :
    WorkstationRegistry Conn :=
  { r with workstations := r.workstations.filter fun p => !(p.1 == id) }

/-- `WorkstationRegistry::count`. -/
def count (r : WorkstationRegistry Conn) : Nat :=
  r.workstations.length

/-- `WorkstationRegistry::cleanup_expired` at time `now`: retain an entry in
`Reconnecting(since)` exactly when `now - since ≤ grace_period`. -/
def cleanup_expired (r : WorkstationRegistry Conn) (now : Nat) :
    WorkstationRegistry Conn :=
  { r with
    workstations := r.workstations.filter fun p =>
      match p.2.state with
      | .Reconnecting since => decide (now - since ≤ r.grace_period)
      | .Active => true }

end WorkstationRegistry

/-! ## Server connection handler (tunnel-server/src/server.rs) -/

/-- The slice of the server configuration `handle_connection` reads. -/
structure ServerConfig where
  api_key : String
  max_workstations : Nat
  domain : String
  tls_enabled : Bool
deriving DecidableEq

/-- The tunnel URL the server formats into its `Registered` reply. -/
def tunnelUrl (cfg : ServerConfig) (id : String) : String :=
  (if cfg.tls_enabled then "https" else "http") ++ "://" ++ cfg.domain ++ "/t/" ++ id

/-- The reply `handle_connection` sends on the handshake substream. -/
inductive HelloReply where
  | errorReply (code : String) (message : String)
  | registered (url : String)
deriving DecidableEq

/-- The handshake dispatch of `TunnelServer::handle_connection`: the first
message on the first substream decides auth, capacity, registration or
reconnection, and yields the updated registry plus the reply sent back. -/
def handleHello {Conn : Type} (cfg : ServerConfig) (r : WorkstationRegistry Conn)
    (msg : Message) (connection : Conn) (now : Nat) :
    WorkstationRegistry Conn × HelloReply :=
  match msg with
  | .Register reg =>
    if reg.api_key ≠ cfg.api_key then
      (r, .errorReply "AUTH_FAILED" "Invalid API key")
    else if cfg.max_workstations ≤ r.count then
      (r, .errorReply "LIMIT_REACHED" "Maximum workstations reached")
    else
      match r.register reg.workstation_id connection now with
      | .error e => (r, .errorReply "REGISTRATION_FAILED" e)
      | .ok r' => (r', .registered (tunnelUrl cfg reg.workstation_id))
  | .Reconnect rc =>
    if rc.api_key ≠ cfg.api_key then
      (r, .errorReply "AUTH_FAILED" "Invalid API key")
    else
      match r.reconnect rc.workstation_id connection now with
      | .error e => (r, .errorReply "RECONNECT_FAILED" e)
      | .ok r' => (r', .registered (tunnelUrl cfg rc.workstation_id))
  | _ =>
    (r, .errorReply "INVALID_MESSAGE" "Expected Register or Reconnect message")

/-- Registry transition performed by the `Register` branch of
`handle_connection` after `handle_workstation_messages` returns (the inbound
loop ended because `accept_bi` failed, i.e. the transport died): the loop's
final `mark_reconnecting`, then the branch's unconditional `unregister`. -/
def afterInboundLoopRegister {Conn : Type} (r : WorkstationRegistry Conn)
    (id : String) (now : Nat) : WorkstationRegistry Conn :=
  (r.mark_reconnecting id now).unregister id

/-- Registry transition performed by the `Reconnect` branch of
`handle_connection` after `handle_workstation_messages` returns: only the
loop's final `mark_reconnecting`. -/
def afterInboundLoopReconnect {Conn : Type} (r : WorkstationRegistry Conn)
    (id : String) (now : Nat) : WorkstationRegistry Conn :=
  r.mark_reconnecting id now

/-- One registry-writing step of the server, used to state the capacity
invariant across any sequence of operations: the handshake dispatch, either
post-loop transition, or the periodic cleanup. -/
inductive ServerOp (Conn : Type) where
  | hello (msg : Message) (connection : Conn) (now : Nat)
  | disconnectRegister (id : String) (now : Nat)
  | disconnectReconnect (id : String) (now : Nat)
  | cleanup (now : Nat)

/-- Effect of a `ServerOp` on the registry. -/
def serverStep {Conn : Type} (cfg : ServerConfig) (op : ServerOp Conn)
    (r : WorkstationRegistry Conn) : WorkstationRegistry Conn :=
  match op with
  | .hello msg connection now => (handleHello cfg r msg connection now).1
  | .disconnectRegister id now => afterInboundLoopRegister r id now
  | .disconnectReconnect id now => afterInboundLoopReconnect r id now
  | .cleanup now => r.cleanup_expired now

/-! ## Reconnect strategy (tunnel-client/src/reconnect.rs) -/

/-- `struct ReconnectStrategy`; durations are in milliseconds, so
`ReconnectStrategy::new(max_delay_secs)` stores `max_delay_secs * 1000`. -/
structure ReconnectStrategy where
  max_delay : Nat
  attempt : Nat
deriving DecidableEq

namespace ReconnectStrategy

/-- `ReconnectStrategy::new`. -/
def new (max_delay_secs : Nat) : ReconnectStrategy :=
  { max_delay := max_delay_secs * 1000, attempt := 0 }

/-- `ReconnectStrategy::reset`. -/
def reset (s : ReconnectStrategy) : ReconnectStrategy :=
  { s with attempt := 0 }

/-- `ReconnectStrategy::calculate_delay` in milliseconds:
`min(100ms * 2^(attempt.saturating_sub(1).min(7)), max_delay)`; `Nat`
subtraction is the saturating subtraction of the source. -/
def calculate_delay (s : ReconnectStrategy) : Nat :=
  min (100 * 2 ^ (min (s.attempt - 1) 7)) s.max_delay

/-- `ReconnectStrategy::wait_before_retry`: increment the attempt counter and
return the updated strategy with the delay slept for. -/
def wait_before_retry (s : ReconnectStrategy) : ReconnectStrategy × Nat :=
  let s' := { s with attempt := s.attempt + 1 }
  (s', s'.calculate_delay)

end ReconnectStrategy

/-! ## Agent inbound dispatch (tunnel-client/src/client.rs) -/

/-- What the worker spawned by `TunnelClient::handle_messages` does with the
single message it reads from an inbound substream. -/
inductive DispatchAction where
  | respondHttp (req : HttpRequestMessage)
  | runWebSocket (o : WsOpenMessage)
  | ignore
deriving DecidableEq

/-- The dispatch of `TunnelClient::handle_messages`: `HttpRequest` is
forwarded to the local proxy and answered on the same substream, `WsOpen`
starts the WebSocket bridge, and every other variant falls into the
wildcard arm and is dropped. -/
def clientDispatch : Message → DispatchAction
  | .HttpRequest req => .respondHttp req
  | .WsOpen o => .runWebSocket o
  | _ => .ignore

/-! ## Base64 body decoding (tunnel-core/src/codec.rs, `decode_body`) -/

/-- Value of one standard-alphabet base64 character. -/
def b64Val (c : Char) : Option Nat :=
  if 'A' ≤ c ∧ c ≤ 'Z' then some (c.toNat - 65)
  else if 'a' ≤ c ∧ c ≤ 'z' then some (c.toNat - 97 + 26)
  else if '0' ≤ c ∧ c ≤ '9' then some (c.toNat - 48 + 52)
  else if c = '+' then some 62
  else if c = '/' then some 63
  else none

/-- Decode base64 groups of four characters into bytes; the trailing group
may carry `=` padding, and as in the `base64` crate's standard engine,
non-zero trailing bits are rejected. -/
def b64Groups : List Char → Except String (List Nat)
  | [] => .ok []
  | [a, b, '=', '='] =>
    match b64Val a, b64Val b with
    | some va, some vb =>
      if vb % 16 = 0 then .ok [va * 4 + vb / 16] else .error "invalid base64"
    | _, _ => .error "invalid base64"
  | [a, b, c, '='] =>
    match b64Val a, b64Val b, b64Val c with
    | some va, some vb, some vc =>
      if vc % 4 = 0 then
        .ok [va * 4 + vb / 16, vb % 16 * 16 + vc / 4]
      else .error "invalid base64"
    | _, _, _ => .error "invalid base64"
  | a :: b :: c :: d :: rest =>
    match b64Val a, b64Val b, b64Val c, b64Val d with
    | some va, some vb, some vc, some vd =>
      (b64Groups rest).map fun bytes =>
        (va * 4 + vb / 16) :: (vb % 16 * 16 + vc / 4) :: (vc % 4 * 64 + vd) :: bytes
    | _, _, _, _ => .error "invalid base64"
  | _ => .error "invalid base64"

/-- `codec::decode_body`: base64-decode a string to bytes. -/
def decode_body (s : String) : Except String (List Nat) :=
  b64Groups s.data

/-! ## Unary HTTP relay (tunnel-server/src/proxy.rs, `handle_http_proxy`) -/

/-- Outcome of `timeout(request_timeout, recv_message(&mut recv))`. -/
inductive RecvOutcome where
  | timeout
  | recvErr
  | msg (m : Message)
deriving DecidableEq

/-- Outcomes of the I/O the unary relay awaits, supplied as an environment:
reading the external request body, opening the substream, sending the
request, finishing the send side, and the first reply. -/
structure UnaryRelayEnv where
  bodyRead : Except String (List Nat)
  openOk : Bool
  sendOk : Bool
  finishOk : Bool
  reply : RecvOutcome

/-- The outbound response the relay builds on success. -/
structure HttpOut where
  status : Nat
  headers : Headers
  body : List Nat
deriving DecidableEq

/-- The unary path of `handle_http_proxy` (after the WebSocket/SSE
classifier): registry lookup, body drain, substream open/send/half-close,
then exactly one reply; errors surface as the HTTP status codes of the
source. -/
def handle_http_proxy {Conn : Type} (r : WorkstationRegistry Conn)
    (workstation_id : String) (env : UnaryRelayEnv) : Except Nat HttpOut :=
  match r.get workstation_id with
  | none => .error 404
  | some _ =>
    match env.bodyRead with
    | .error _ => .error 400
    | .ok _ =>
      if !env.openOk then .error 502
      else if !env.sendOk then .error 502
      else if !env.finishOk then .error 502
      else
        match env.reply with
        | .timeout => .error 504
        | .recvErr => .error 502
        | .msg (.HttpResponse resp) =>
          match resp.body with
          | none => .ok ⟨resp.status, resp.headers, []⟩
          | some b =>
            match decode_body b with
            | .ok bytes => .ok ⟨resp.status, resp.headers, bytes⟩
            | .error _ => .error 500
        | .msg _ => .error 500

/-! ## JSON printer (the compact output of `serde_json::to_vec` for
`enum Message`, at the level of unicode characters) -/

/-- Lowercase hex digit, as emitted by `serde_json` in `\u` escapes. -/
def hexDigitChar (n : Nat) : Char :=
  if n < 10 then Char.ofNat (48 + n) else Char.ofNat (87 + n)

/-- Escape one character of a JSON string the way `serde_json` does: `"` and
`\` get a backslash, control characters use the short escapes or `\u00xx`,
everything else is emitted verbatim. -/
def escChar (c : Char) : List Char :=
  if c = '"' then ['\\', '"']
  else if c = '\\' then ['\\', '\\']
  else if c.toNat < 32 then
    if c = '\x08' then ['\\', 'b']
    else if c = '\x09' then ['\\', 't']
    else if c = '\x0a' then ['\\', 'n']
    else if c = '\x0c' then ['\\', 'f']
    else if c = '\x0d' then ['\\', 'r']
    else ['\\', 'u', '0', '0', hexDigitChar (c.toNat / 16), hexDigitChar (c.toNat % 16)]
  else [c]

/-- Print a JSON string literal with quotes and escapes. -/
def printStr (s : String) : List Char :=
  '"' :: (s.data.map escChar).flatten ++ ['"']

/-- Decimal digit character. -/
def digitChar (d : Nat) : Char := Char.ofNat (48 + d)

/-- Decimal digits of `n`, most significant first. -/
def natDigits (n : Nat) : List Char :=
  if n < 10 then [digitChar n]
  else natDigits (n / 10) ++ [digitChar (n % 10)]
decreasing_by exact Nat.div_lt_self (by omega) (by omega)

/-- Print a JSON number (all numeric protocol fields are unsigned). -/
def printNat (n : Nat) : List Char := natDigits n

/-- Print a JSON boolean. -/
def printBool : Bool → List Char
  | true => ['t', 'r', 'u', 'e']
  | false => ['f', 'a', 'l', 's', 'e']

/-- Print a field separator, key and colon: `,"name":`. -/
def printKey (name : String) : List Char :=
  ',' :: printStr name ++ [':']

/-- Print the pairs of a non-empty headers object including the closing
brace. -/
def printPairsAux : Headers → List Char
  | [] => ['\x7d']
  | [(k, v)] => printStr k ++ ':' :: printStr v ++ ['\x7d']
  | (k, v) :: ps => printStr k ++ ':' :: printStr v ++ ',' :: printPairsAux ps

/-- Print a headers map as a JSON object. -/
def printMap : Headers → List Char
  | [] => ['\x7b', '\x7d']
  | ps => '\x7b' :: printPairsAux ps

/-- The opening of every message object: `{"type":`. -/
def jsonTypeLit : List Char :=
  '\x7b' :: printStr "type" ++ [':']

/-- The opening of a message object with its tag: `{"type":"tag"`. -/
def printHead (tag : String) : List Char :=
  jsonTypeLit ++ printStr tag

/-- Print an optional field that `serde` omits when `None`
(`skip_serializing_if = "Option::is_none"`). -/
def printOptStrField (name : String) : Option String → List Char
  | none => []
  | some s => printKey name ++ printStr s

/-- Print a nullable string value (`Option<String>` without a skip
attribute). -/
def printNullStr : Option String → List Char
  | none => ['n', 'u', 'l', 'l']
  | some s => printStr s

/-- Print a nullable number value (`Option<u16>` without a skip attribute). -/
def printNullNat : Option Nat → List Char
  | none => ['n', 'u', 'l', 'l']
  | some n => printNat n

/-- The JSON text `serde_json` produces for a message: the `type` tag first,
then the variant's fields in declaration order. -/
def printMessage : Message → List Char
  | .Register m => printHead "register"
      ++ printKey "api_key" ++ printStr m.api_key
      ++ printKey "workstation_id" ++ printStr m.workstation_id ++ ['\x7d']
  | .Registered m => printHead "registered"
      ++ printKey "url" ++ printStr m.url ++ ['\x7d']
  | .Reconnect m => printHead "reconnect"
      ++ printKey "api_key" ++ printStr m.api_key
      ++ printKey "workstation_id" ++ printStr m.workstation_id
      ++ printKey "session_ticket" ++ printNullStr m.session_ticket ++ ['\x7d']
  | .Ping m => printHead "ping"
      ++ printKey "timestamp" ++ printNat m.timestamp ++ ['\x7d']
  | .Pong m => printHead "pong"
      ++ printKey "timestamp" ++ printNat m.timestamp ++ ['\x7d']
  | .Error m => printHead "error"
      ++ printKey "code" ++ printStr m.code
      ++ printKey "message" ++ printStr m.message ++ ['\x7d']
  | .HttpRequest m => printHead "http_request"
      ++ printKey "stream_id" ++ printStr m.stream_id
      ++ printKey "method" ++ printStr m.method
      ++ printKey "path" ++ printStr m.path
      ++ printKey "headers" ++ printMap m.headers
      ++ printOptStrField "body" m.body ++ ['\x7d']
  | .HttpResponse m => printHead "http_response"
      ++ printKey "stream_id" ++ printStr m.stream_id
      ++ printKey "status" ++ printNat m.status
      ++ printKey "headers" ++ printMap m.headers
      ++ printOptStrField "body" m.body ++ ['\x7d']
  | .WsOpen m => printHead "ws_open"
      ++ printKey "stream_id" ++ printStr m.stream_id
      ++ printKey "path" ++ printStr m.path
      ++ printKey "headers" ++ printMap m.headers ++ ['\x7d']
  | .WsData m => printHead "ws_data"
      ++ printKey "stream_id" ++ printStr m.stream_id
      ++ printKey "data" ++ printStr m.data
      ++ printKey "is_binary" ++ printBool m.is_binary ++ ['\x7d']
  | .WsClose m => printHead "ws_close"
      ++ printKey "stream_id" ++ printStr m.stream_id
      ++ printKey "code" ++ printNullNat m.code
      ++ printKey "reason" ++ printNullStr m.reason ++ ['\x7d']
  | .SseOpen m => printHead "sse_open"
      ++ printKey "stream_id" ++ printStr m.stream_id
      ++ printKey "method" ++ printStr m.method
      ++ printKey "path" ++ printStr m.path
      ++ printKey "headers" ++ printMap m.headers ++ ['\x7d']
  | .SseHeaders m => printHead "sse_headers"
      ++ printKey "stream_id" ++ printStr m.stream_id
      ++ printKey "status" ++ printNat m.status
      ++ printKey "headers" ++ printMap m.headers ++ ['\x7d']
  | .SseData m => printHead "sse_data"
      ++ printKey "stream_id" ++ printStr m.stream_id
      ++ printKey "data" ++ printStr m.data ++ ['\x7d']
  | .SseClose m => printHead "sse_close"
      ++ printKey "stream_id" ++ printStr m.stream_id
      ++ printKey "error" ++ printNullStr m.error ++ ['\x7d']

/-! ## JSON reader (`serde_json::from_slice` on the wire format) -/

/-- Value of a hex digit character. -/
def hexVal (c : Char) : Option Nat :=
  if '0' ≤ c ∧ c ≤ '9' then some (c.toNat - 48)
  else if 'a' ≤ c ∧ c ≤ 'f' then some (c.toNat - 87)
  else if 'A' ≤ c ∧ c ≤ 'F' then some (c.toNat - 55)
  else none

/-- The character a two-character JSON escape stands for. -/
def unescChar (e : Char) : Option Char :=
  if e = '"' then some '"'
  else if e = '\\' then some '\\'
  else if e = '/' then some '/'
  else if e = 'b' then some '\x08'
  else if e = 'f' then some '\x0c'
  else if e = 'n' then some '\x0a'
  else if e = 'r' then some '\x0d'
  else if e = 't' then some '\x09'
  else none

/-- Read the remainder of a JSON string literal after the opening quote,
returning its characters and the input after the closing quote. -/
def parseStrAux : List Char → Option (List Char × List Char)
  | [] => none
  | c :: rest =>
    if c = '"' then some ([], rest)
    else if c = '\\' then
      match rest with
      | [] => none
      | e :: rest2 =>
        if e = 'u' then
          match rest2 with
          | a :: b :: c2 :: d :: rest3 =>
            match hexVal a, hexVal b, hexVal c2, hexVal d with
            | some ha, some hb, some hc, some hd =>
              (parseStrAux rest3).map fun pr =>
                (Char.ofNat (((ha * 16 + hb) * 16 + hc) * 16 + hd) :: pr.1, pr.2)
            | _, _, _, _ => none
          | _ => none
        else
          match unescChar e with
          | some u => (parseStrAux rest2).map fun pr => (u :: pr.1, pr.2)
          | none => none
    else (parseStrAux rest).map fun pr => (c :: pr.1, pr.2)

/-- Read a JSON string literal. -/
def parseStr : List Char → Option (String × List Char)
  | [] => none
  | c :: rest =>
    if c = '"' then (parseStrAux rest).map fun pr => (String.mk pr.1, pr.2)
    else none

/-- Expect the given literal characters. -/
def parseLit : List Char → List Char → Option (List Char)
  | [], input => some input
  | _ :: _, [] => none
  | c :: cs, d :: ds => if d = c then parseLit cs ds else none

/-- Accumulate decimal digits. -/
def parseNatAux : Nat → List Char → Nat × List Char
  | acc, [] => (acc, [])
  | acc, c :: rest =>
    if c.isDigit then parseNatAux (acc * 10 + (c.toNat - 48)) rest
    else (acc, c :: rest)

/-- Read a JSON number (at least one digit). -/
def parseNat : List Char → Option (Nat × List Char)
  | [] => none
  | c :: rest =>
    if c.isDigit then some (parseNatAux (c.toNat - 48) rest) else none

/-- Read a JSON boolean. -/
def parseBool (input : List Char) : Option (Bool × List Char) :=
  match parseLit ['t', 'r', 'u', 'e'] input with
  | some r => some (true, r)
  | none =>
    match parseLit ['f', 'a', 'l', 's', 'e'] input with
    | some r => some (false, r)
    | none => none

/-- Read the key/value pairs of a non-empty headers object, consuming the
closing brace; the fuel is an upper bound on the number of pairs. -/
def parsePairsItems : Nat → List Char → Option (Headers × List Char)
  | 0, _ => none
  | fuel + 1, input =>
    match parseStr input with
    | none => none
    | some (k, r1) =>
      match r1 with
      | [] => none
      | c1 :: r2 =>
        if c1 = ':' then
          match parseStr r2 with
          | none => none
          | some (v, r3) =>
            match r3 with
            | [] => none
            | c3 :: r4 =>
              if c3 = ',' then
                (parsePairsItems fuel r4).map fun pr => ((k, v) :: pr.1, pr.2)
              else if c3 = '\x7d' then some ([(k, v)], r4)
              else none
        else none

/-- Read a headers object. -/
def parseMap : List Char → Option (Headers × List Char)
  | [] => none
  | c :: rest =>
    if c = '\x7b' then
      match rest with
      | [] => parsePairsItems 0 []
      | d :: rest2 =>
        if d = '\x7d' then some ([], rest2)
        else parsePairsItems rest.length rest
    else none

/-- Expect `,"name":`. -/
def parseKey (name : String) (input : List Char) : Option (List Char) :=
  parseLit (printKey name) input

/-- Read a `,"name":"value"` field. -/
def parseStrField (name : String) (input : List Char) : Option (String × List Char) :=
  (parseKey name input).bind parseStr

/-- Read a `,"name":number` field. -/
def parseNatField (name : String) (input : List Char) : Option (Nat × List Char) :=
  (parseKey name input).bind parseNat

/-- Read a `,"name":bool` field. -/
def parseBoolField (name : String) (input : List Char) : Option (Bool × List Char) :=
  (parseKey name input).bind parseBool

/-- Read a `,"name":{...}` field. -/
def parseMapField (name : String) (input : List Char) : Option (Headers × List Char) :=
  (parseKey name input).bind parseMap

/-- Read a field that may be omitted entirely (the closing brace follows
directly when it is absent). -/
def parseOptStrField (name : String) (input : List Char) :
    Option (Option String × List Char) :=
  match input with
  | [] => none
  | c :: _ =>
    if c = '\x7d' then some (none, input)
    else ((parseKey name input).bind parseStr).map fun pr => (some pr.1, pr.2)

/-- Read a nullable string value. -/
def parseNullStr (input : List Char) : Option (Option String × List Char) :=
  match input with
  | [] => none
  | c :: rest =>
    if c = 'n' then (parseLit ['u', 'l', 'l'] rest).map fun r => (none, r)
    else (parseStr input).map fun pr => (some pr.1, pr.2)

/-- Read a nullable number value. -/
def parseNullNat (input : List Char) : Option (Option Nat × List Char) :=
  match input with
  | [] => none
  | c :: rest =>
    if c = 'n' then (parseLit ['u', 'l', 'l'] rest).map fun r => ((none : Option Nat), r)
    else (parseNat input).map fun pr => (some pr.1, pr.2)

/-- Read a `,"name":null-or-string` field. -/
def parseNullStrField (name : String) (input : List Char) :
    Option (Option String × List Char) :=
  (parseKey name input).bind parseNullStr

/-- Read a `,"name":null-or-number` field. -/
def parseNullNatField (name : String) (input : List Char) :
    Option (Option Nat × List Char) :=
  (parseKey name input).bind parseNullNat

/-- Expect the closing brace of the message object. -/
def parseEndBrace : List Char → Option (List Char)
  | [] => none
  | c :: rest => if c = '\x7d' then some rest else none

/-- Parse one message object from the head of the input, returning it and
the unconsumed remainder. -/
def parseMessage (input : List Char) : Option (Message × List Char) :=
  match parseLit jsonTypeLit input with
  | none => none
  | some r1 =>
    match parseStr r1 with
    | none => none
    | some (tag, r2) =>
      if tag = "register" then
        (parseStrField "api_key" r2).bind fun pa =>
        (parseStrField "workstation_id" pa.2).bind fun pw =>
        (parseEndBrace pw.2).map fun r => (.Register ⟨pa.1, pw.1⟩, r)
      else if tag = "registered" then
        (parseStrField "url" r2).bind fun pu =>
        (parseEndBrace pu.2).map fun r => (.Registered ⟨pu.1⟩, r)
      else if tag = "reconnect" then
        (parseStrField "api_key" r2).bind fun pa =>
        (parseStrField "workstation_id" pa.2).bind fun pw =>
        (parseNullStrField "session_ticket" pw.2).bind fun pt =>
        (parseEndBrace pt.2).map fun r => (.Reconnect ⟨pa.1, pw.1, pt.1⟩, r)
      else if tag = "ping" then
        (parseNatField "timestamp" r2).bind fun pt =>
        (parseEndBrace pt.2).map fun r => (.Ping ⟨pt.1⟩, r)
      else if tag = "pong" then
        (parseNatField "timestamp" r2).bind fun pt =>
        (parseEndBrace pt.2).map fun r => (.Pong ⟨pt.1⟩, r)
      else if tag = "error" then
        (parseStrField "code" r2).bind fun pc =>
        (parseStrField "message" pc.2).bind fun pm =>
        (parseEndBrace pm.2).map fun r => (.Error ⟨pc.1, pm.1⟩, r)
      else if tag = "http_request" then
        (parseStrField "stream_id" r2).bind fun ps =>
        (parseStrField "method" ps.2).bind fun pm =>
        (parseStrField "path" pm.2).bind fun pp =>
        (parseMapField "headers" pp.2).bind fun ph =>
        (parseOptStrField "body" ph.2).bind fun pb =>
        (parseEndBrace pb.2).map fun r =>
          (.HttpRequest ⟨ps.1, pm.1, pp.1, ph.1, pb.1⟩, r)
      else if tag = "http_response" then
        (parseStrField "stream_id" r2).bind fun ps =>
        (parseNatField "status" ps.2).bind fun pst =>
        (parseMapField "headers" pst.2).bind fun ph =>
        (parseOptStrField "body" ph.2).bind fun pb =>
        (parseEndBrace pb.2).map fun r =>
          (.HttpResponse ⟨ps.1, pst.1, ph.1, pb.1⟩, r)
      else if tag = "ws_open" then
        (parseStrField "stream_id" r2).bind fun ps =>
        (parseStrField "path" ps.2).bind fun pp =>
        (parseMapField "headers" pp.2).bind fun ph =>
        (parseEndBrace ph.2).map fun r => (.WsOpen ⟨ps.1, pp.1, ph.1⟩, r)
      else if tag = "ws_data" then
        (parseStrField "stream_id" r2).bind fun ps =>
        (parseStrField "data" ps.2).bind fun pd =>
        (parseBoolField "is_binary" pd.2).bind fun pb =>
        (parseEndBrace pb.2).map fun r => (.WsData ⟨ps.1, pd.1, pb.1⟩, r)
      else if tag = "ws_close" then
        (parseStrField "stream_id" r2).bind fun ps =>
        (parseNullNatField "code" ps.2).bind fun pc =>
        (parseNullStrField "reason" pc.2).bind fun pr =>
        (parseEndBrace pr.2).map fun r => (.WsClose ⟨ps.1, pc.1, pr.1⟩, r)
      else if tag = "sse_open" then
        (parseStrField "stream_id" r2).bind fun ps =>
        (parseStrField "method" ps.2).bind fun pm =>
        (parseStrField "path" pm.2).bind fun pp =>
        (parseMapField "headers" pp.2).bind fun ph =>
        (parseEndBrace ph.2).map fun r => (.SseOpen ⟨ps.1, pm.1, pp.1, ph.1⟩, r)
      else if tag = "sse_headers" then
        (parseStrField "stream_id" r2).bind fun ps =>
        (parseNatField "status" ps.2).bind fun pst =>
        (parseMapField "headers" pst.2).bind fun ph =>
        (parseEndBrace ph.2).map fun r => (.SseHeaders ⟨ps.1, pst.1, ph.1⟩, r)
      else if tag = "sse_data" then
        (parseStrField "stream_id" r2).bind fun ps =>
        (parseStrField "data" ps.2).bind fun pd =>
        (parseEndBrace pd.2).map fun r => (.SseData ⟨ps.1, pd.1⟩, r)
      else if tag = "sse_close" then
        (parseStrField "stream_id" r2).bind fun ps =>
        (parseNullStrField "error" ps.2).bind fun pe =>
        (parseEndBrace pe.2).map fun r => (.SseClose ⟨ps.1, pe.1⟩, r)
      else none

/-! ## Frame codec (tunnel-core/src/codec.rs) and the stream reader
(tunnel-core/src/quic.rs) -/

/-- Big-endian bytes of a 32-bit value (`BufMut::put_u32`). -/
def be32 (n : Nat) : List Nat :=
  [n / 2 ^ 24 % 256, n / 2 ^ 16 % 256, n / 2 ^ 8 % 256, n % 256]

/-- `u32::from_be_bytes`. -/
def beVal (a b c d : Nat) : Nat :=
  ((a * 256 + b) * 256 + c) * 256 + d

/-- `codec::encode_message`: the JSON bytes prefixed by their length as a
big-endian `u32` (the `as u32` cast truncates mod `2^32`). -/
def encode_message (m : Message) : List Nat :=
  let json := (printMessage m).map Char.toNat
  be32 (json.length % 2 ^ 32) ++ json

/-- `codec::decode_message`: read the 4-byte prefix, require the buffer to
hold the announced payload, parse it, and report the consumed size. -/
def decode_message (data : List Nat) : Except String (Message × Nat) :=
  match data with
  | d0 :: d1 :: d2 :: d3 :: rest =>
    let len := beVal d0 d1 d2 d3
    if data.length < 4 + len then
      .error "insufficient data"
    else
      match parseMessage ((rest.take len).map Char.ofNat) with
      | some (m, []) => .ok (m, 4 + len)
      | _ => .error "parse error"
  | _ => .error "insufficient data for length prefix"

/-- `quic::recv_message`: read 4 length bytes from the stream, refuse
payloads larger than 10,000,000 bytes before reading them, then read exactly
the announced payload and parse it; returns the message and the rest of the
stream. -/
def recv_message (stream : List Nat) : Except String (Message × List Nat) :=
  match stream with
  | d0 :: d1 :: d2 :: d3 :: rest =>
    let len := beVal d0 d1 d2 d3
    if 10000000 < len then
      .error ("message too large: " ++ toString len ++ " bytes")
    else if rest.length < len then
      .error "stream closed"
    else
      match parseMessage ((rest.take len).map Char.ofNat) with
      | some (m, []) => .ok (m, rest.drop len)
      | _ => .error "parse error"
  | _ => .error "stream closed"

/-! ## Helper lemmas about the registry's association list -/

theorem find?_update_self {Conn : Type} (l : List (String × WorkstationInfo Conn))
    (id : String) (f : WorkstationInfo Conn → WorkstationInfo Conn) :
    (l.map fun p => if p.1 == id then (p.1, f p.2) else p).find?
        (fun p => p.1 == id)
      = (l.find? fun p => p.1 == id).map fun p => (p.1, f p.2) := by
  induction l with
  | nil => rfl
  | cons p t ih =>
    simp only [List.map_cons]
    by_cases h : p.1 = id
    · rw [if_pos (by simpa using h)]
      rw [List.find?_cons, List.find?_cons]
      have hb : (p.1 == id) = true := by simpa using h
      simp only [hb]
      rfl
    · rw [if_neg (by simpa using h)]
      rw [List.find?_cons, List.find?_cons]
      have hb : (p.1 == id) = false := by simpa using h
      simp only [hb]
      exact ih

theorem find?_update_other {Conn : Type} (l : List (String × WorkstationInfo Conn))
    (id id' : String) (h : id' ≠ id) (f : WorkstationInfo Conn → WorkstationInfo Conn) :
    (l.map fun p => if p.1 == id then (p.1, f p.2) else p).find?
        (fun p => p.1 == id')
      = l.find? fun p => p.1 == id' := by
  induction l with
  | nil => rfl
  | cons p t ih =>
    simp only [List.map_cons]
    by_cases hp : p.1 = id
    · have hne : (p.1 == id') = false := by
        simp only [beq_eq_false_iff_ne, ne_eq, hp]
        exact fun he => h he.symm
      rw [if_pos (by simpa using hp)]
      rw [List.find?_cons, List.find?_cons]
      simp only [hne]
      exact ih
    · rw [if_neg (by simpa using hp)]
      rw [List.find?_cons, List.find?_cons]
      by_cases hq : p.1 = id'
      · have hb : (p.1 == id') = true := by simpa using hq
        simp only [hb]
      · have hb : (p.1 == id') = false := by simpa using hq
        simp only [hb]
        exact ih

theorem find?_filter_not_self {Conn : Type} (l : List (String × WorkstationInfo Conn))
    (id : String) :
    (l.filter fun p => !(p.1 == id)).find? (fun p => p.1 == id) = none := by
  rw [List.find?_eq_none]
  intro x hx
  have := (List.mem_filter.mp hx).2
  simpa using this

theorem find?_append_none {α : Type} (l₁ l₂ : List α) (p : α → Bool)
    (h : l₁.find? p = none) : (l₁ ++ l₂).find? p = l₂.find? p := by
  induction l₁ with
  | nil => rfl
  | cons a t ih =>
    rw [List.find?_cons] at h
    by_cases hp : p a
    · simp [hp] at h
    · rw [List.cons_append, List.find?_cons]
      simp only [hp] at h ⊢
      exact ih h

theorem get_mark_reconnecting_self {Conn : Type} (r : WorkstationRegistry Conn)
    (id : String) (now : Nat) :
    (r.mark_reconnecting id now).get id
      = (r.get id).map fun info => { info with state := .Reconnecting now } := by
  unfold WorkstationRegistry.get WorkstationRegistry.mark_reconnecting
  simp only
  rw [find?_update_self r.workstations id
    (fun info => { info with state := WorkstationState.Reconnecting now })]
  cases r.workstations.find? fun p => p.1 == id <;> rfl

theorem get_update_self {Conn : Type} (r : WorkstationRegistry Conn) (id : String)
    (f : WorkstationInfo Conn → WorkstationInfo Conn) :
    WorkstationRegistry.get
      { r with workstations := r.workstations.map fun p =>
          if p.1 == id then (p.1, f p.2) else p } id
      = (r.get id).map f := by
  unfold WorkstationRegistry.get
  simp only
  rw [find?_update_self r.workstations id f]
  cases r.workstations.find? fun p => p.1 == id <;> rfl

theorem get_update_other {Conn : Type} (r : WorkstationRegistry Conn)
    (id id' : String) (h : id' ≠ id)
    (f : WorkstationInfo Conn → WorkstationInfo Conn) :
    WorkstationRegistry.get
      { r with workstations := r.workstations.map fun p =>
          if p.1 == id then (p.1, f p.2) else p } id'
      = r.get id' := by
  unfold WorkstationRegistry.get
  simp only
  rw [find?_update_other r.workstations id id' h f]

theorem reconnect_eq_ok_of {Conn : Type} (r : WorkstationRegistry Conn)
    (id : String) (conn : Conn) (now : Nat) (info : WorkstationInfo Conn)
    (hget : r.get id = some info)
    (hstate : (match info.state with
        | .Reconnecting since => decide (r.grace_period < now - since)
        | .Active => false) = false) :
    r.reconnect id conn now
      = .ok { r with workstations := r.workstations.map fun p =>
          if p.1 == id then
            (p.1, { p.2 with connection := conn, state := .Active })
          else p } := by
  unfold WorkstationRegistry.reconnect
  rw [hget]
  dsimp only
  rw [hstate]
  simp

theorem reconnect_eq_expired_of {Conn : Type} (r : WorkstationRegistry Conn)
    (id : String) (conn : Conn) (now : Nat) (info : WorkstationInfo Conn)
    (hget : r.get id = some info)
    (hstate : (match info.state with
        | .Reconnecting since => decide (r.grace_period < now - since)
        | .Active => false) = true) :
    r.reconnect id conn now = .error "grace period expired" := by
  unfold WorkstationRegistry.reconnect
  rw [hget]
  dsimp only
  rw [hstate]
  simp

theorem register_ok_count {Conn : Type} {r r' : WorkstationRegistry Conn}
    {id : String} {conn : Conn} {now : Nat}
    (h : r.register id conn now = .ok r') : r'.count = r.count + 1 := by
  unfold WorkstationRegistry.register at h
  split at h
  · exact absurd h (by simp)
  · cases h
    simp [WorkstationRegistry.count]

theorem reconnect_ok_shape {Conn : Type} {r r' : WorkstationRegistry Conn}
    {id : String} {conn : Conn} {now : Nat}
    (h : r.reconnect id conn now = .ok r') :
    r' = { r with
      workstations := r.workstations.map fun p =>
        if p.1 == id then
          (p.1, { p.2 with connection := conn, state := .Active })
        else p } := by
  unfold WorkstationRegistry.reconnect at h
  split at h
  · exact absurd h (by simp)
  · split at h
    · exact absurd h (by simp)
    · cases h; rfl

/-! ## Claim theorems about the registry, the server flow and the backoff -/

/-- C1: when the inbound loop of the `Register` branch ends because the
transport died, the registry entry for that workstation is gone immediately
afterwards — `handle_connection` follows the loop's final `mark_reconnecting`
with an unconditional `unregister`, contradicting the claim that the entry
is still present for the grace window. -/
theorem c1_register_branch_drops_entry {Conn : Type}
    (r : WorkstationRegistry Conn) (id : String) (now : Nat) :
    (afterInboundLoopRegister r id now).get id = none := by
  unfold afterInboundLoopRegister WorkstationRegistry.unregister
      WorkstationRegistry.get
  rw [find?_filter_not_self]
  rfl

/-- C4 counterexample: `WorkstationRegistry::register` itself performs no
capacity check. On a registry already holding one entry — the configured
maximum in this scenario — registering a second id succeeds and the registry
grows to 2 > 1 entries instead of failing with a capacity error. -/
theorem c4_counterexample :
    (WorkstationRegistry.register
        ⟨[("a", ⟨"a", 1, 0, .Active⟩)], 30⟩ "b" (2 : Nat) 0).map
        WorkstationRegistry.count = .ok 2 ∧ (1 : Nat) < 2 :=
  ⟨rfl, by omega⟩

/-- C4 (amended): capacity is enforced by the server's `Register` handler,
which replies `LIMIT_REACHED` without touching the registry whenever
`count() >= max_workstations`; along any sequence of server registry
operations the count therefore never exceeds the configured maximum. -/
theorem c4_capacity_enforced_in_server_flow {Conn : Type} (cfg : ServerConfig)
    (op : ServerOp Conn) (r : WorkstationRegistry Conn)
    (h : r.count ≤ cfg.max_workstations) :
    (serverStep cfg op r).count ≤ cfg.max_workstations := by
  cases op with
  | hello msg conn now =>
    cases msg with
    | Register reg =>
      simp only [serverStep, handleHello]
      split
      · exact h
      · split
        · exact h
        · rename_i hcap
          cases hreg : WorkstationRegistry.register r reg.workstation_id conn now with
          | error e => simpa [hreg] using h
          | ok r' =>
            simp only [hreg]
            have := register_ok_count hreg
            omega
    | Reconnect rc =>
      simp only [serverStep, handleHello]
      split
      · exact h
      · cases hrec : WorkstationRegistry.reconnect r rc.workstation_id conn now with
        | error e => simpa [hrec] using h
        | ok r' =>
          simp only [hrec]
          have := reconnect_ok_shape hrec
          subst this
          simpa [WorkstationRegistry.count] using h
    | Registered m => exact h
    | Ping m => exact h
    | Pong m => exact h
    | Error m => exact h
    | HttpRequest m => exact h
    | HttpResponse m => exact h
    | WsOpen m => exact h
    | WsData m => exact h
    | WsClose m => exact h
    | SseOpen m => exact h
    | SseHeaders m => exact h
    | SseData m => exact h
    | SseClose m => exact h
  | disconnectRegister id now =>
    have hle : (serverStep cfg (.disconnectRegister id now) r).count ≤ r.count := by
      simp only [serverStep, afterInboundLoopRegister,
        WorkstationRegistry.unregister, WorkstationRegistry.count,
        WorkstationRegistry.mark_reconnecting]
      exact le_trans (List.length_filter_le _ _) (le_of_eq (List.length_map _ _))
    exact le_trans hle h
  | disconnectReconnect id now =>
    simpa [serverStep, afterInboundLoopReconnect,
      WorkstationRegistry.mark_reconnecting, WorkstationRegistry.count] using h
  | cleanup now =>
    exact le_trans (List.length_filter_le _ _) h

/-- Witness for C4's amended theorem at a concrete registration that fills
the last slot of a server with `max_workstations = 1`. -/
theorem c4_capacity_witness :
    (serverStep ⟨"key", 1, "example.com", false⟩
        (.hello (.Register ⟨"key", "ws-A"⟩) (0 : Nat) 0)
        (WorkstationRegistry.new 30)).count ≤ 1 :=
  c4_capacity_enforced_in_server_flow _ _ _ (by decide)

/-- C5: after `mark_reconnecting(id)` at `t0`, `reconnect` succeeds and
reactivates the entry with the new transport whenever `t - t0 ≤ G`, fails
with the grace-expired error whenever `t - t0 > G`, and `cleanup_expired`
at such a `t` removes the entry. -/
theorem c5_grace_period_semantics {Conn : Type} (r : WorkstationRegistry Conn)
    (id : String) (info : WorkstationInfo Conn) (conn : Conn) (t0 t : Nat)
    (hget : r.get id = some info) :
    (t - t0 ≤ r.grace_period →
      ∃ r₂, (r.mark_reconnecting id t0).reconnect id conn t = .ok r₂
        ∧ r₂.get id = some { info with connection := conn, state := .Active })
    ∧ (r.grace_period < t - t0 →
      (r.mark_reconnecting id t0).reconnect id conn t
        = .error "grace period expired")
    ∧ (r.grace_period < t - t0 →
      ((r.mark_reconnecting id t0).cleanup_expired t).get id = none) := by
  have hget' : (r.mark_reconnecting id t0).get id
      = some { info with state := .Reconnecting t0 } := by
    rw [get_mark_reconnecting_self, hget]; rfl
  refine ⟨?_, ?_, ?_⟩
  · intro hin
    have hstate : (match (WorkstationState.Reconnecting t0) with
        | .Reconnecting since =>
            decide ((r.mark_reconnecting id t0).grace_period < t - since)
        | .Active => false) = false := by
      simp only [decide_eq_false_iff_not]
      exact Nat.not_lt.mpr hin
    refine ⟨_, reconnect_eq_ok_of _ id conn t _ hget' hstate, ?_⟩
    rw [get_update_self (r.mark_reconnecting id t0) id
      (fun i => { i with connection := conn, state := WorkstationState.Active }),
      hget']
    rfl
  · intro hout
    have hstate : (match (WorkstationState.Reconnecting t0) with
        | .Reconnecting since =>
            decide ((r.mark_reconnecting id t0).grace_period < t - since)
        | .Active => false) = true := by
      simp only [decide_eq_true_eq]
      exact hout
    exact reconnect_eq_expired_of _ id conn t _ hget' hstate
  · intro hout
    unfold WorkstationRegistry.cleanup_expired WorkstationRegistry.get
    simp only
    rw [Option.map_eq_none', List.find?_eq_none]
    intro x hx
    have hmem := (List.mem_filter.mp hx).1
    have hkeep := (List.mem_filter.mp hx).2
    simp only [WorkstationRegistry.mark_reconnecting, List.mem_map] at hmem
    obtain ⟨q, _, hq⟩ := hmem
    by_cases hk : q.1 = id
    · rw [if_pos (by simpa using hk)] at hq
      subst hq
      simp only [decide_eq_true_eq] at hkeep
      exact absurd hkeep (by simp [WorkstationRegistry.mark_reconnecting]; omega)
    · rw [if_neg (by simpa using hk)] at hq
      subst hq
      simpa using hk

/-- Witness for C5 at a concrete one-entry registry with grace period 30,
disconnect at 10 and reconnect at 35. -/
theorem c5_grace_period_witness :
    ∃ r₂, ((⟨[("ws-A", ⟨"ws-A", 7, 0, .Active⟩)], 30⟩ :
        WorkstationRegistry Nat).mark_reconnecting "ws-A" 10).reconnect
          "ws-A" 9 35 = .ok r₂
      ∧ r₂.get "ws-A" = some ⟨"ws-A", 9, 0, .Active⟩ :=
  (c5_grace_period_semantics
      (⟨[("ws-A", ⟨"ws-A", 7, 0, .Active⟩)], 30⟩ : WorkstationRegistry Nat)
      "ws-A" ⟨"ws-A", 7, 0, .Active⟩ 9 10 35 rfl).1
    (by decide)

/-- C9: a successful `register(id, t)` stores an `Active` entry holding the
given transport, and any later `register` of the same id fails with the
duplicate-registration error for as long as the entry is present. -/
theorem c9_register_postconditions {Conn : Type} (r : WorkstationRegistry Conn)
    (id : String) (conn : Conn) (now : Nat) (r' : WorkstationRegistry Conn)
    (habs : r.get id = none)
    (hok : r.register id conn now = .ok r') :
    r'.get id = some ⟨id, conn, now, .Active⟩
    ∧ ∀ (r₂ : WorkstationRegistry Conn) (conn₂ : Conn) (now₂ : Nat),
        (r₂.get id).isSome →
        r₂.register id conn₂ now₂
          = .error ("workstation " ++ id ++ " already registered") := by
  constructor
  · unfold WorkstationRegistry.register at hok
    split at hok
    · exact absurd hok (by simp)
    · cases hok
      unfold WorkstationRegistry.get at habs ⊢
      simp only
      rw [find?_append_none _ _ _ (by simpa using habs)]
      simp [List.find?_cons]
  · intro r₂ conn₂ now₂ hsome
    unfold WorkstationRegistry.get at hsome
    cases hf : (r₂.workstations.find? fun p => p.1 == id) with
    | none => rw [hf] at hsome; simp at hsome
    | some q =>
      have hq := List.find?_some hf
      have hmem := List.mem_of_find?_eq_some hf
      unfold WorkstationRegistry.register
      rw [if_pos (List.any_eq_true.mpr ⟨q, hmem, hq⟩)]

/-- Witness for C9 at a fresh registration into an empty registry. -/
theorem c9_register_witness :
    ((WorkstationRegistry.new 30 : WorkstationRegistry Nat).register
        "ws-A" 7 5 |>.map (fun r' => r'.get "ws-A"))
      = .ok (some ⟨"ws-A", 7, 5, .Active⟩) := by
  have := c9_register_postconditions (WorkstationRegistry.new 30)
    "ws-A" (7 : Nat) 5 ⟨[("ws-A", ⟨"ws-A", 7, 5, .Active⟩)], 30⟩ rfl rfl
  rw [show ((WorkstationRegistry.new 30 : WorkstationRegistry Nat).register
      "ws-A" 7 5) = .ok ⟨[("ws-A", ⟨"ws-A", 7, 5, .Active⟩)], 30⟩ from rfl]
  rw [Except.map, this.1]

/-- C10: a successful `reconnect` only swaps the entry's transport and sets
its state to `Active`; the entry's id and `registered_at` are kept, every
other entry is untouched, and so are the registry's size and grace period. -/
theorem c10_reconnect_frame {Conn : Type} (r : WorkstationRegistry Conn)
    (id : String) (conn : Conn) (now : Nat) (r₂ : WorkstationRegistry Conn)
    (hok : r.reconnect id conn now = .ok r₂) :
    (∃ info, r.get id = some info
      ∧ r₂.get id = some { info with connection := conn, state := .Active })
    ∧ (∀ id', id' ≠ id → r₂.get id' = r.get id')
    ∧ r₂.count = r.count
    ∧ r₂.grace_period = r.grace_period := by
  have hshape := reconnect_ok_shape hok
  have hget : ∃ info, r.get id = some info := by
    unfold WorkstationRegistry.reconnect at hok
    cases hg : r.get id with
    | none => rw [hg] at hok; exact absurd hok (by simp)
    | some info => exact ⟨info, rfl⟩
  obtain ⟨info, hinfo⟩ := hget
  subst hshape
  refine ⟨⟨info, hinfo, ?_⟩, ?_, ?_, rfl⟩
  · rw [get_update_self r id
      (fun i => { i with connection := conn, state := WorkstationState.Active }),
      hinfo]
    rfl
  · intro id' hne
    rw [get_update_other r id id' hne
      (fun i => { i with connection := conn, state := WorkstationState.Active })]
  · simp [WorkstationRegistry.count]

/-- Witness for C10 at a concrete two-entry registry. -/
theorem c10_reconnect_witness :
    ∃ info, (⟨[("a", ⟨"a", 1, 0, .Active⟩), ("b", ⟨"b", 2, 3, .Active⟩)], 30⟩ :
        WorkstationRegistry Nat).get "a" = some info
      ∧ (⟨[("a", ⟨"a", 9, 0, .Active⟩), ("b", ⟨"b", 2, 3, .Active⟩)], 30⟩ :
          WorkstationRegistry Nat).get "a"
        = some { info with connection := 9, state := .Active } :=
  (c10_reconnect_frame
    ⟨[("a", ⟨"a", 1, 0, .Active⟩), ("b", ⟨"b", 2, 3, .Active⟩)], 30⟩
    "a" 9 4
    ⟨[("a", ⟨"a", 9, 0, .Active⟩), ("b", ⟨"b", 2, 3, .Active⟩)], 30⟩
    rfl).1

/-- C8: the backoff delay equals `min(100ms * 2^min(k-1,7), max_delay)` for
every attempt `k ≥ 1`, is monotone in `k`, and never exceeds `max_delay`. -/
theorem c8_backoff_formula (max_delay k : Nat) (_hk : 1 ≤ k) :
    ReconnectStrategy.calculate_delay ⟨max_delay, k⟩
      = min (100 * 2 ^ (min (k - 1) 7)) max_delay
    ∧ ReconnectStrategy.calculate_delay ⟨max_delay, k⟩
      ≤ ReconnectStrategy.calculate_delay ⟨max_delay, k + 1⟩
    ∧ ReconnectStrategy.calculate_delay ⟨max_delay, k + 1⟩ ≤ max_delay := by
  refine ⟨rfl, ?_, ?_⟩
  · unfold ReconnectStrategy.calculate_delay
    refine min_le_min ?_ le_rfl
    refine Nat.mul_le_mul_left _ ?_
    refine Nat.pow_le_pow_right (by omega) ?_
    simp only [Nat.add_sub_cancel]
    exact min_le_min (Nat.sub_le_sub_right (Nat.le_succ k) 1) le_rfl
  · exact Nat.min_le_right _ _

/-- Witness for C8 at attempt 3 with a 700 ms cap. -/
theorem c8_backoff_witness :
    ReconnectStrategy.calculate_delay ⟨700, 3⟩
      = min (100 * 2 ^ (min (3 - 1) 7)) 700 :=
  (c8_backoff_formula 700 3 (by omega)).1

/-- C2: every frame whose 4-byte big-endian length prefix exceeds 10,485,760
is refused by `recv_message` with the too-large error before the payload is
read — the result is the same for every payload, and in fact the source
refuses everything above its 10,000,000-byte limit. -/
theorem c2_oversized_refused (d0 d1 d2 d3 : Nat) (rest : List Nat)
    (h : 10485760 < beVal d0 d1 d2 d3) :
    recv_message (d0 :: d1 :: d2 :: d3 :: rest)
      = .error ("message too large: " ++ toString (beVal d0 d1 d2 d3)
          ++ " bytes") := by
  unfold recv_message
  dsimp only
  rw [if_pos]
  exact by omega

/-- Witness for C2 at the prefix encoding 10,485,761 = 0x00A00001. -/
theorem c2_oversized_witness :
    recv_message [0, 160, 0, 1]
      = .error ("message too large: " ++ toString (beVal 0 160 0 1)
          ++ " bytes") :=
  c2_oversized_refused 0 160 0 1 [] (by norm_num [beVal])

/-- C3: the agent's inbound dispatch drops `SseOpen` messages — they fall
into the wildcard arm of `TunnelClient::handle_messages`, so
`LocalProxy::handle_sse_open` (which would issue the origin request and
reply `SseHeaders`/`SseData`/`SseClose`) is never invoked. -/
theorem c3_sse_open_ignored (o : SseOpenMessage) :
    clientDispatch (.SseOpen o) = .ignore := rfl

/-- C7: outcome map of the unary HTTP relay — 404 when the workstation id is
absent, 502 when opening, sending, half-closing or receiving fails, 500 when
the first reply is not an `HttpResponse`, 504 on the first-reply deadline,
and otherwise the agent's status, headers and base64-decoded body. -/
theorem c7_unary_relay_outcomes {Conn : Type} (r : WorkstationRegistry Conn)
    (id : String) (env : UnaryRelayEnv) :
    (r.get id = none → handle_http_proxy r id env = .error 404)
    ∧ ((r.get id).isSome → env.bodyRead.isOk →
        ((env.openOk = false ∨ env.sendOk = false ∨ env.finishOk = false) →
          handle_http_proxy r id env = .error 502)
        ∧ (env.openOk = true → env.sendOk = true → env.finishOk = true →
            (env.reply = .timeout → handle_http_proxy r id env = .error 504)
            ∧ (env.reply = .recvErr → handle_http_proxy r id env = .error 502)
            ∧ (∀ m, env.reply = .msg m →
                (∀ resp, m ≠ .HttpResponse resp) →
                handle_http_proxy r id env = .error 500)
            ∧ (∀ resp, env.reply = .msg (.HttpResponse resp) →
                (resp.body = none →
                  handle_http_proxy r id env
                    = .ok ⟨resp.status, resp.headers, []⟩)
                ∧ (∀ b bytes, resp.body = some b → decode_body b = .ok bytes →
                    handle_http_proxy r id env
                      = .ok ⟨resp.status, resp.headers, bytes⟩)))) := by
  constructor
  · intro hnone
    unfold handle_http_proxy
    rw [hnone]
  · intro hsome hbody
    obtain ⟨info, hinfo⟩ := Option.isSome_iff_exists.mp hsome
    obtain ⟨bb, hbb⟩ : ∃ bb, env.bodyRead = .ok bb := by
      cases hb : env.bodyRead with
      | error e => rw [hb] at hbody; exact absurd hbody (by simp [Except.isOk, Except.toBool])
      | ok v => exact ⟨v, rfl⟩
    constructor
    · intro hfail
      unfold handle_http_proxy
      rw [hinfo, hbb]
      rcases hfail with hf | hf | hf <;> rw [hf] <;> simp
    · intro hopen hsend hfin
      unfold handle_http_proxy
      rw [hinfo, hbb, hopen, hsend, hfin]
      simp only [Bool.not_true, Bool.false_eq_true, if_false]
      refine ⟨?_, ?_, ?_, ?_⟩
      · intro hrep; rw [hrep]
      · intro hrep; rw [hrep]
      · intro m hrep hne
        rw [hrep]
        cases m with
        | HttpResponse resp => exact absurd rfl (hne resp)
        | Register x => rfl
        | HttpRequest x => rfl
        | Registered x => rfl
        | Reconnect x => rfl
        | Ping x => rfl
        | Pong x => rfl
        | Error x => rfl
        | WsOpen x => rfl
        | WsData x => rfl
        | WsClose x => rfl
        | SseOpen x => rfl
        | SseHeaders x => rfl
        | SseData x => rfl
        | SseClose x => rfl
      · intro resp hrep
        rw [hrep]
        dsimp only
        constructor
        · intro hb; rw [hb]
        · intro b bytes hb hdec
          rw [hb]
          dsimp only
          rw [hdec]

/-- Witness for C7: with a one-entry registry, a missing id yields 404, a
deadline yields 504, and a well-formed reply is relayed with its decoded
body (`"aGk="` is `"hi"`). -/
theorem c7_unary_relay_witness :
    handle_http_proxy (WorkstationRegistry.new 30 : WorkstationRegistry Nat)
        "ws-A" ⟨.ok [], true, true, true, .timeout⟩ = .error 404
    ∧ handle_http_proxy
        (⟨[("ws-A", ⟨"ws-A", 7, 0, .Active⟩)], 30⟩ : WorkstationRegistry Nat)
        "ws-A" ⟨.ok [], true, true, true, .timeout⟩ = .error 504
    ∧ handle_http_proxy
        (⟨[("ws-A", ⟨"ws-A", 7, 0, .Active⟩)], 30⟩ : WorkstationRegistry Nat)
        "ws-A" ⟨.ok [], true, true, true,
          .msg (.HttpResponse ⟨"s", 200, [("k", "v")], some "aGk="⟩)⟩
      = .ok ⟨200, [("k", "v")], [104, 105]⟩ := by
  refine ⟨?_, ?_, ?_⟩
  · exact (c7_unary_relay_outcomes (WorkstationRegistry.new 30) "ws-A"
      ⟨.ok [], true, true, true, .timeout⟩).1 rfl
  · exact (((c7_unary_relay_outcomes
      (⟨[("ws-A", ⟨"ws-A", 7, 0, .Active⟩)], 30⟩ : WorkstationRegistry Nat)
      "ws-A" ⟨.ok [], true, true, true, .timeout⟩).2 (by decide)
        (by simp [Except.isOk, Except.toBool])).2 rfl rfl rfl).1 rfl
  · exact ((((((c7_unary_relay_outcomes
      (⟨[("ws-A", ⟨"ws-A", 7, 0, .Active⟩)], 30⟩ : WorkstationRegistry Nat)
      "ws-A" ⟨.ok [], true, true, true,
        .msg (.HttpResponse ⟨"s", 200, [("k", "v")], some "aGk="⟩)⟩).2
      (by decide) (by simp [Except.isOk, Except.toBool])).2 rfl rfl rfl).2.2.2
      ⟨"s", 200, [("k", "v")], some "aGk="⟩ rfl).2) "aGk=" [104, 105] rfl
      (by rfl))

/-! ## Agreement of the JSON reader with the JSON printer -/

theorem parseLit_self (lit r : List Char) : parseLit lit (lit ++ r) = some r := by
  induction lit with
  | nil => rfl
  | cons c cs ih => simp [parseLit, ih]

theorem toNat_ofNat_small (n : Nat) (h : n < 55296) : (Char.ofNat n).toNat = n := by
  unfold Char.ofNat
  rw [dif_pos (Or.inl h)]
  rfl

theorem hexVal_hexDigitChar (d : Nat) (h : d < 16) :
    hexVal (hexDigitChar d) = some d := by
  interval_cases d <;> rfl

theorem parseStrAux_quote (rest : List Char) :
    parseStrAux ('"' :: rest) = some ([], rest) := by
  rw [parseStrAux.eq_def]
  dsimp only
  rw [if_pos rfl]

theorem parseStrAux_esc2 (e u : Char) (tail : List Char) (he : ¬ e = 'u')
    (hu : unescChar e = some u) :
    parseStrAux ('\\' :: e :: tail)
      = (parseStrAux tail).map fun pr => (u :: pr.1, pr.2) := by
  rw [parseStrAux.eq_def]
  dsimp only
  rw [if_neg (by decide), if_pos rfl]
  rw [if_neg he, hu]

theorem parseStrAux_escU (a b : Nat) (x1 x2 : Char) (tail : List Char)
    (h1 : hexVal x1 = some a) (h2 : hexVal x2 = some b) :
    parseStrAux ('\\' :: 'u' :: '0' :: '0' :: x1 :: x2 :: tail)
      = (parseStrAux tail).map fun pr =>
          (Char.ofNat (((0 * 16 + 0) * 16 + a) * 16 + b) :: pr.1, pr.2) := by
  rw [parseStrAux.eq_def]
  dsimp only
  rw [if_neg (by decide), if_pos rfl]
  rw [if_pos rfl]
  rw [h1, h2]
  rw [show hexVal '0' = some 0 from rfl]

theorem parseStrAux_plain (c : Char) (tail : List Char) (h1 : ¬ c = '"')
    (h2 : ¬ c = '\\') :
    parseStrAux (c :: tail)
      = (parseStrAux tail).map fun pr => (c :: pr.1, pr.2) := by
  rw [parseStrAux.eq_def]
  dsimp only
  rw [if_neg h1, if_neg h2]

theorem parseStrAux_escChar (c : Char) (tail cs r : List Char)
    (ih : parseStrAux tail = some (cs, r)) :
    parseStrAux (escChar c ++ tail) = some (c :: cs, r) := by
  unfold escChar
  by_cases h1 : c = '"'
  · subst h1
    rw [if_pos rfl]
    rw [show ['\\', '"'] ++ tail = '\\' :: '"' :: tail from rfl]
    rw [parseStrAux_esc2 '"' '"' tail (by decide) rfl, ih, Option.map_some']
  · rw [if_neg h1]
    by_cases h2 : c = '\\'
    · subst h2
      rw [if_pos rfl]
      rw [show ['\\', '\\'] ++ tail = '\\' :: '\\' :: tail from rfl]
      rw [parseStrAux_esc2 '\\' '\\' tail (by decide) rfl, ih, Option.map_some']
    · rw [if_neg h2]
      by_cases h3 : c.toNat < 32
      · rw [if_pos h3]
        by_cases h4 : c = '\x08'
        · subst h4; rw [if_pos rfl]
          rw [show ['\\', 'b'] ++ tail = '\\' :: 'b' :: tail from rfl]
          rw [parseStrAux_esc2 'b' '\x08' tail (by decide) rfl, ih, Option.map_some']
        · rw [if_neg h4]
          by_cases h5 : c = '\x09'
          · subst h5; rw [if_pos rfl]
            rw [show ['\\', 't'] ++ tail = '\\' :: 't' :: tail from rfl]
            rw [parseStrAux_esc2 't' '\x09' tail (by decide) rfl, ih, Option.map_some']
          · rw [if_neg h5]
            by_cases h6 : c = '\x0a'
            · subst h6; rw [if_pos rfl]
              rw [show ['\\', 'n'] ++ tail = '\\' :: 'n' :: tail from rfl]
              rw [parseStrAux_esc2 'n' '\x0a' tail (by decide) rfl, ih, Option.map_some']
            · rw [if_neg h6]
              by_cases h7 : c = '\x0c'
              · subst h7; rw [if_pos rfl]
                rw [show ['\\', 'f'] ++ tail = '\\' :: 'f' :: tail from rfl]
                rw [parseStrAux_esc2 'f' '\x0c' tail (by decide) rfl, ih, Option.map_some']
              · rw [if_neg h7]
                by_cases h8 : c = '\x0d'
                · subst h8; rw [if_pos rfl]
                  rw [show ['\\', 'r'] ++ tail = '\\' :: 'r' :: tail from rfl]
                  rw [parseStrAux_esc2 'r' '\x0d' tail (by decide) rfl, ih, Option.map_some']
                · rw [if_neg h8]
                  have hd1 : hexVal (hexDigitChar (c.toNat / 16))
                      = some (c.toNat / 16) := hexVal_hexDigitChar _ (by omega)
                  have hd2 : hexVal (hexDigitChar (c.toNat % 16))
                      = some (c.toNat % 16) := hexVal_hexDigitChar _ (by omega)
                  rw [show ['\\', 'u', '0', '0', hexDigitChar (c.toNat / 16),
                      hexDigitChar (c.toNat % 16)] ++ tail
                    = '\\' :: 'u' :: '0' :: '0' :: hexDigitChar (c.toNat / 16)
                      :: hexDigitChar (c.toNat % 16) :: tail from rfl]
                  rw [parseStrAux_escU _ _ _ _ tail hd1 hd2, ih, Option.map_some']
                  have hval : ((0 * 16 + 0) * 16 + c.toNat / 16) * 16
                      + c.toNat % 16 = c.toNat := by omega
                  rw [hval, Char.ofNat_toNat]
      · rw [if_neg h3]
        rw [show [c] ++ tail = c :: tail from rfl]
        rw [parseStrAux_plain c tail h1 h2, ih, Option.map_some']

theorem parseStrAux_print (cs r : List Char) :
    parseStrAux ((cs.map escChar).flatten ++ '"' :: r) = some (cs, r) := by
  induction cs with
  | nil => simpa using parseStrAux_quote r
  | cons c t ih =>
    simp only [List.map_cons, List.flatten_cons, List.append_assoc]
    exact parseStrAux_escChar c _ t r ih

theorem parseStr_print (s : String) (r : List Char) :
    parseStr (printStr s ++ r) = some (s, r) := by
  unfold printStr
  simp only [List.cons_append, List.append_assoc, List.singleton_append]
  simp [parseStr, parseStrAux_print]

theorem digitChar_toNat (d : Nat) (h : d < 10) : (digitChar d).toNat = 48 + d := by
  unfold digitChar
  exact toNat_ofNat_small _ (by omega)

theorem digitChar_isDigit (d : Nat) (h : d < 10) : (digitChar d).isDigit = true := by
  interval_cases d <;> decide

theorem parseNatAux_stop (acc : Nat) (r : List Char)
    (h : ∀ c, r.head? = some c → c.isDigit = false) :
    parseNatAux acc r = (acc, r) := by
  cases r with
  | nil => rfl
  | cons c t =>
    have hc := h c rfl
    rw [parseNatAux.eq_def]
    dsimp only
    rw [if_neg (by simp [hc])]

theorem parseNatAux_digit (acc d : Nat) (hd : d < 10) (r : List Char) :
    parseNatAux acc (digitChar d :: r) = parseNatAux (acc * 10 + d) r := by
  rw [parseNatAux.eq_def]
  dsimp only
  rw [if_pos (by simp [digitChar_isDigit d hd])]
  have hsub : (digitChar d).toNat - 48 = d := by
    rw [digitChar_toNat d hd]; omega
  rw [hsub]

theorem natDigits_base (n : Nat) (h : n < 10) : natDigits n = [digitChar n] := by
  rw [natDigits.eq_def, if_pos h]

theorem natDigits_step (n : Nat) (h : ¬ n < 10) :
    natDigits n = natDigits (n / 10) ++ [digitChar (n % 10)] := by
  rw [natDigits.eq_def]
  rw [if_neg h]

theorem natDigits_head (n : Nat) :
    ∃ c t, natDigits n = c :: t ∧ c.isDigit = true := by
  induction n using Nat.strong_induction_on with
  | _ n ih =>
    by_cases h : n < 10
    · exact ⟨digitChar n, [], natDigits_base n h, digitChar_isDigit n h⟩
    · obtain ⟨c, t, hct, hcd⟩ := ih (n / 10) (Nat.div_lt_self (by omega) (by omega))
      refine ⟨c, t ++ [digitChar (n % 10)], ?_, hcd⟩
      rw [natDigits_step n h, hct, List.cons_append]

theorem parseNatAux_append (n : Nat) : ∀ (acc : Nat) (r : List Char),
    parseNatAux acc (natDigits n ++ r)
      = parseNatAux (acc * 10 ^ (natDigits n).length + n) r := by
  induction n using Nat.strong_induction_on with
  | _ n ih =>
    intro acc r
    by_cases h : n < 10
    · rw [natDigits_base n h]
      simp only [List.singleton_append, List.length_singleton, pow_one]
      exact parseNatAux_digit acc n h r
    · rw [natDigits_step n h, List.append_assoc, List.singleton_append]
      rw [ih (n / 10) (Nat.div_lt_self (by omega) (by omega)) acc]
      rw [parseNatAux_digit _ (n % 10) (by omega) r]
      simp only [List.length_append, List.length_singleton, pow_succ]
      congr 1
      rw [← Nat.mul_assoc]
      omega

theorem parseNat_print (n : Nat) (r : List Char)
    (h : ∀ c, r.head? = some c → c.isDigit = false) :
    parseNat (printNat n ++ r) = some (n, r) := by
  obtain ⟨c, t, hct, hcd⟩ := natDigits_head n
  have key : parseNatAux 0 (natDigits n ++ r) = (n, r) := by
    rw [parseNatAux_append n 0 r]
    simp only [Nat.zero_mul, Nat.zero_add]
    exact parseNatAux_stop n r h
  rw [hct, List.cons_append] at key
  rw [parseNatAux.eq_def] at key
  dsimp only at key
  rw [if_pos (by simp [hcd])] at key
  simp only [Nat.zero_mul, Nat.zero_add] at key
  unfold printNat
  rw [hct, List.cons_append]
  rw [parseNat.eq_def]
  dsimp only
  rw [if_pos (by simp [hcd]), key]

theorem parseBool_print (b : Bool) (r : List Char) :
    parseBool (printBool b ++ r) = some (b, r) := by
  cases b
  · have h1 : parseLit ['t', 'r', 'u', 'e'] (printBool false ++ r) = none := by
      rw [show printBool false ++ r = 'f' :: 'a' :: 'l' :: 's' :: 'e' :: r from rfl]
      rw [parseLit.eq_def]
      dsimp only
      rw [if_neg (by decide)]
    unfold parseBool
    rw [h1]
    rw [show printBool false ++ r = ['f', 'a', 'l', 's', 'e'] ++ r from rfl]
    rw [parseLit_self]
  · unfold parseBool
    rw [show printBool true ++ r = ['t', 'r', 'u', 'e'] ++ r from rfl]
    rw [parseLit_self]

theorem printStr_shape (s : String) (x : List Char) :
    printStr s ++ x = '"' :: ((s.data.map escChar).flatten ++ '"' :: x) := by
  unfold printStr
  simp [List.cons_append, List.append_assoc]

theorem printPairsAux_cons_shape (k v : String) (ps : Headers) :
    ∃ y, printPairsAux ((k, v) :: ps) = '"' :: y := by
  cases ps with
  | nil =>
    refine ⟨(k.data.map escChar).flatten ++ '"' :: (':' :: (printStr v ++ ['\x7d'])), ?_⟩
    rw [show printPairsAux [(k, v)]
      = printStr k ++ ':' :: (printStr v ++ ['\x7d']) from by
        simp [printPairsAux, List.cons_append, List.append_assoc]]
    rw [printStr_shape]
  | cons q t =>
    refine ⟨(k.data.map escChar).flatten
      ++ '"' :: (':' :: (printStr v ++ ',' :: printPairsAux (q :: t))), ?_⟩
    rw [show printPairsAux ((k, v) :: q :: t)
      = printStr k ++ ':' :: (printStr v ++ ',' :: printPairsAux (q :: t)) from by
        simp [printPairsAux, List.cons_append, List.append_assoc]]
    rw [printStr_shape]

theorem printStr_length_pos (s : String) : 1 ≤ (printStr s).length := by
  unfold printStr
  simp

theorem printPairsAux_length_ge (ps : Headers) :
    ps.length ≤ (printPairsAux ps).length := by
  induction ps with
  | nil => simp [printPairsAux]
  | cons p t ih =>
    obtain ⟨k, v⟩ := p
    cases t with
    | nil =>
      rw [show printPairsAux [(k, v)]
        = printStr k ++ ':' :: (printStr v ++ ['\x7d']) from by
          simp [printPairsAux, List.cons_append, List.append_assoc]]
      simp only [List.length_cons, List.length_append]
      have := printStr_length_pos k
      simp only [List.length_nil]
      omega
    | cons q t2 =>
      rw [show printPairsAux ((k, v) :: q :: t2)
        = printStr k ++ ':' :: (printStr v ++ ',' :: printPairsAux (q :: t2)) from by
          simp [printPairsAux, List.cons_append, List.append_assoc]]
      simp only [List.length_cons, List.length_append] at ih ⊢
      have := printStr_length_pos k
      omega

theorem parsePairsItems_print : ∀ (ps : Headers) (fuel : Nat) (r : List Char),
    ps ≠ [] → ps.length ≤ fuel →
    parsePairsItems fuel (printPairsAux ps ++ r) = some (ps, r) := by
  intro ps
  induction ps with
  | nil => intro fuel r h _; exact absurd rfl h
  | cons p t ih =>
    intro fuel r _ hlen
    obtain ⟨f, rfl⟩ : ∃ f, fuel = f + 1 :=
      ⟨fuel - 1, by simp at hlen; omega⟩
    obtain ⟨k, v⟩ := p
    cases t with
    | nil =>
      rw [show printPairsAux [(k, v)] ++ r
        = printStr k ++ (':' :: (printStr v ++ ('\x7d' :: r))) from by
          simp [printPairsAux, List.cons_append, List.append_assoc]]
      rw [parsePairsItems.eq_def]
      dsimp only
      rw [parseStr_print]
      dsimp only
      rw [if_pos rfl]
      rw [parseStr_print]
      dsimp only
      rw [if_neg (by decide), if_pos rfl]
    | cons q t2 =>
      rw [show printPairsAux ((k, v) :: q :: t2) ++ r
        = printStr k ++ (':' :: (printStr v ++ (',' :: (printPairsAux (q :: t2) ++ r)))) from by
          simp [printPairsAux, List.cons_append, List.append_assoc]]
      rw [parsePairsItems.eq_def]
      dsimp only
      rw [parseStr_print]
      dsimp only
      rw [if_pos rfl]
      rw [parseStr_print]
      dsimp only
      rw [if_pos rfl]
      rw [ih f r (by simp) (by simp at hlen ⊢; omega)]
      rfl

theorem parseMap_print (ps : Headers) (r : List Char) :
    parseMap (printMap ps ++ r) = some (ps, r) := by
  cases ps with
  | nil =>
    rw [show printMap [] ++ r = '\x7b' :: '\x7d' :: r from rfl]
    rw [parseMap.eq_def]
    dsimp only
    rw [if_pos rfl, if_pos rfl]
  | cons p t =>
    obtain ⟨k, v⟩ := p
    obtain ⟨y, hy⟩ := printPairsAux_cons_shape k v t
    rw [show printMap ((k, v) :: t) ++ r
      = '\x7b' :: (printPairsAux ((k, v) :: t) ++ r) from by
        simp [printMap, List.cons_append]]
    rw [parseMap.eq_def]
    dsimp only
    rw [if_pos rfl]
    rw [hy, List.cons_append]
    dsimp only
    rw [if_neg (by decide)]
    rw [← List.cons_append, ← hy]
    refine parsePairsItems_print _ _ r (by simp) ?_
    simp only [List.length_append]
    have := printPairsAux_length_ge ((k, v) :: t)
    omega

theorem parseKey_print (name : String) (r : List Char) :
    parseKey name (printKey name ++ r) = some r :=
  parseLit_self _ r

theorem parseStrField_print (name s : String) (r : List Char) :
    parseStrField name (printKey name ++ (printStr s ++ r)) = some (s, r) := by
  unfold parseStrField
  rw [parseKey_print]
  dsimp only [Option.bind]
  rw [parseStr_print]

theorem parseNatField_print (name : String) (n : Nat) (r : List Char)
    (h : ∀ c, r.head? = some c → c.isDigit = false) :
    parseNatField name (printKey name ++ (printNat n ++ r)) = some (n, r) := by
  unfold parseNatField
  rw [parseKey_print]
  dsimp only [Option.bind]
  rw [parseNat_print n r h]

theorem parseBoolField_print (name : String) (b : Bool) (r : List Char) :
    parseBoolField name (printKey name ++ (printBool b ++ r)) = some (b, r) := by
  unfold parseBoolField
  rw [parseKey_print]
  dsimp only [Option.bind]
  rw [parseBool_print]

theorem parseMapField_print (name : String) (ps : Headers) (r : List Char) :
    parseMapField name (printKey name ++ (printMap ps ++ r)) = some (ps, r) := by
  unfold parseMapField
  rw [parseKey_print]
  dsimp only [Option.bind]
  rw [parseMap_print]

theorem parseNullStr_print (o : Option String) (r : List Char) :
    parseNullStr (printNullStr o ++ r) = some (o, r) := by
  cases o with
  | none =>
    rw [show printNullStr none ++ r = 'n' :: (['u', 'l', 'l'] ++ r) from rfl]
    rw [parseNullStr.eq_def]
    dsimp only
    rw [if_pos rfl]
    rw [parseLit_self]
    rfl
  | some s =>
    rw [show printNullStr (some s) = printStr s from rfl]
    rw [printStr_shape]
    rw [parseNullStr.eq_def]
    dsimp only
    rw [if_neg (by decide)]
    rw [← printStr_shape, parseStr_print]
    rfl

theorem parseNullStrField_print (name : String) (o : Option String)
    (r : List Char) :
    parseNullStrField name (printKey name ++ (printNullStr o ++ r))
      = some (o, r) := by
  unfold parseNullStrField
  rw [parseKey_print]
  dsimp only [Option.bind]
  rw [parseNullStr_print]

theorem parseNullNat_print (o : Option Nat) (r : List Char)
    (h : ∀ c, r.head? = some c → c.isDigit = false) :
    parseNullNat (printNullNat o ++ r) = some (o, r) := by
  cases o with
  | none =>
    rw [show printNullNat none ++ r = 'n' :: (['u', 'l', 'l'] ++ r) from rfl]
    rw [parseNullNat.eq_def]
    dsimp only
    rw [if_pos rfl]
    rw [parseLit_self]
    rfl
  | some n =>
    obtain ⟨c, t, hct, hcd⟩ := natDigits_head n
    have hcn : ¬ c = 'n' := by
      intro he
      rw [he] at hcd
      exact absurd hcd (by decide)
    rw [show printNullNat (some n) = printNat n from rfl]
    rw [show printNat n = natDigits n from rfl, hct, List.cons_append]
    rw [parseNullNat.eq_def]
    dsimp only
    rw [if_neg hcn]
    rw [← List.cons_append, ← hct,
      show natDigits n = printNat n from rfl]
    rw [parseNat_print n r h]
    rfl

theorem parseNullNatField_print (name : String) (o : Option Nat)
    (r : List Char) (h : ∀ c, r.head? = some c → c.isDigit = false) :
    parseNullNatField name (printKey name ++ (printNullNat o ++ r))
      = some (o, r) := by
  unfold parseNullNatField
  rw [parseKey_print]
  dsimp only [Option.bind]
  rw [parseNullNat_print o r h]

theorem parseOptStrField_print_none (name : String) (r : List Char) :
    parseOptStrField name ('\x7d' :: r) = some (none, '\x7d' :: r) := by
  rw [parseOptStrField.eq_def]
  dsimp only
  rw [if_pos rfl]

theorem parseOptStrField_print_some (name s : String) (r : List Char) :
    parseOptStrField name (printKey name ++ (printStr s ++ r))
      = some (some s, r) := by
  have hshape : printKey name ++ (printStr s ++ r)
      = ',' :: ((printStr name ++ [':']) ++ (printStr s ++ r)) := by
    simp [printKey, List.cons_append]
  rw [hshape, parseOptStrField.eq_def]
  dsimp only
  rw [if_neg (by decide)]
  rw [← hshape, parseKey_print]
  dsimp only [Option.bind]
  rw [parseStr_print]
  rfl

theorem parseEndBrace_print (r : List Char) :
    parseEndBrace ('\x7d' :: r) = some r := rfl

theorem head_brace_not_digit (r : List Char) :
    ∀ c, (('\x7d' :: r) : List Char).head? = some c → c.isDigit = false := by
  intro c hc
  simp only [List.head?_cons, Option.some_inj] at hc
  rw [← hc]
  decide

theorem head_comma_not_digit (r : List Char) :
    ∀ c, ((',' :: r) : List Char).head? = some c → c.isDigit = false := by
  intro c hc
  simp only [List.head?_cons, Option.some_inj] at hc
  rw [← hc]
  decide

theorem head_printKey_not_digit (name : String) (x : List Char) :
    ∀ c, ((printKey name ++ x).head? = some c) → c.isDigit = false := by
  intro c hc
  rw [show printKey name ++ x = ',' :: ((printStr name ++ [':']) ++ x) from by
    simp [printKey, List.cons_append]] at hc
  simp only [List.head?_cons, Option.some_inj] at hc
  rw [← hc]
  decide

theorem parseMessage_print (m : Message) (rest : List Char) :
    parseMessage (printMessage m ++ rest) = some (m, rest) := by
  cases m with
  | Register f =>
    obtain ⟨ak, wid⟩ := f
    simp only [printMessage, printHead, List.append_assoc, List.cons_append,
      List.singleton_append, List.nil_append]
    rw [parseMessage.eq_def, parseLit_self]
    dsimp only
    rw [parseStr_print]
    dsimp only
    rw [if_pos rfl]
    rw [parseStrField_print]
    dsimp only [Option.bind]
    rw [parseStrField_print]
    dsimp only [Option.bind]
    rw [parseEndBrace_print]
    rfl
  | Registered f =>
    obtain ⟨url⟩ := f
    simp only [printMessage, printHead, List.append_assoc, List.cons_append,
      List.singleton_append, List.nil_append]
    rw [parseMessage.eq_def, parseLit_self]
    dsimp only
    rw [parseStr_print]
    dsimp only
    rw [if_neg (by decide), if_pos rfl]
    rw [parseStrField_print]
    dsimp only [Option.bind]
    rw [parseEndBrace_print]
    rfl
  | Reconnect f =>
    obtain ⟨ak, wid, st⟩ := f
    simp only [printMessage, printHead, List.append_assoc, List.cons_append,
      List.singleton_append, List.nil_append]
    rw [parseMessage.eq_def, parseLit_self]
    dsimp only
    rw [parseStr_print]
    dsimp only
    rw [if_neg (by decide), if_neg (by decide), if_pos rfl]
    rw [parseStrField_print]
    dsimp only [Option.bind]
    rw [parseStrField_print]
    dsimp only [Option.bind]
    rw [parseNullStrField_print]
    dsimp only [Option.bind]
    rw [parseEndBrace_print]
    rfl
  | Ping f =>
    obtain ⟨ts⟩ := f
    simp only [printMessage, printHead, List.append_assoc, List.cons_append,
      List.singleton_append, List.nil_append]
    rw [parseMessage.eq_def, parseLit_self]
    dsimp only
    rw [parseStr_print]
    dsimp only
    rw [if_neg (by decide), if_neg (by decide), if_neg (by decide), if_pos rfl]
    rw [parseNatField_print _ _ _ (head_brace_not_digit rest)]
    dsimp only [Option.bind]
    rw [parseEndBrace_print]
    rfl
  | Pong f =>
    obtain ⟨ts⟩ := f
    simp only [printMessage, printHead, List.append_assoc, List.cons_append,
      List.singleton_append, List.nil_append]
    rw [parseMessage.eq_def, parseLit_self]
    dsimp only
    rw [parseStr_print]
    dsimp only
    rw [if_neg (by decide), if_neg (by decide), if_neg (by decide),
      if_neg (by decide), if_pos rfl]
    rw [parseNatField_print _ _ _ (head_brace_not_digit rest)]
    dsimp only [Option.bind]
    rw [parseEndBrace_print]
    rfl
  | Error f =>
    obtain ⟨code, msg⟩ := f
    simp only [printMessage, printHead, List.append_assoc, List.cons_append,
      List.singleton_append, List.nil_append]
    rw [parseMessage.eq_def, parseLit_self]
    dsimp only
    rw [parseStr_print]
    dsimp only
    rw [if_neg (by decide), if_neg (by decide), if_neg (by decide),
      if_neg (by decide), if_neg (by decide), if_pos rfl]
    rw [parseStrField_print]
    dsimp only [Option.bind]
    rw [parseStrField_print]
    dsimp only [Option.bind]
    rw [parseEndBrace_print]
    rfl
  | HttpRequest f =>
    obtain ⟨sid, mth, pth, hdrs, bdy⟩ := f
    cases bdy with
    | none =>
      simp only [printMessage, printHead, printOptStrField, List.append_assoc,
        List.cons_append, List.singleton_append, List.nil_append]
      rw [parseMessage.eq_def, parseLit_self]
      dsimp only
      rw [parseStr_print]
      dsimp only
      rw [if_neg (by decide), if_neg (by decide), if_neg (by decide),
        if_neg (by decide), if_neg (by decide), if_neg (by decide), if_pos rfl]
      rw [parseStrField_print]
      dsimp only [Option.bind]
      rw [parseStrField_print]
      dsimp only [Option.bind]
      rw [parseStrField_print]
      dsimp only [Option.bind]
      rw [parseMapField_print]
      dsimp only [Option.bind]
      rw [parseOptStrField_print_none]
      dsimp only [Option.bind]
      rw [parseEndBrace_print]
      rfl
    | some b =>
      simp only [printMessage, printHead, printOptStrField, List.append_assoc,
        List.cons_append, List.singleton_append, List.nil_append]
      rw [parseMessage.eq_def, parseLit_self]
      dsimp only
      rw [parseStr_print]
      dsimp only
      rw [if_neg (by decide), if_neg (by decide), if_neg (by decide),
        if_neg (by decide), if_neg (by decide), if_neg (by decide), if_pos rfl]
      rw [parseStrField_print]
      dsimp only [Option.bind]
      rw [parseStrField_print]
      dsimp only [Option.bind]
      rw [parseStrField_print]
      dsimp only [Option.bind]
      rw [parseMapField_print]
      dsimp only [Option.bind]
      rw [parseOptStrField_print_some]
      dsimp only [Option.bind]
      rw [parseEndBrace_print]
      rfl
  | HttpResponse f =>
    obtain ⟨sid, status, hdrs, bdy⟩ := f
    cases bdy with
    | none =>
      simp only [printMessage, printHead, printOptStrField, List.append_assoc,
        List.cons_append, List.singleton_append, List.nil_append]
      rw [parseMessage.eq_def, parseLit_self]
      dsimp only
      rw [parseStr_print]
      dsimp only
      rw [if_neg (by decide), if_neg (by decide), if_neg (by decide),
        if_neg (by decide), if_neg (by decide), if_neg (by decide),
        if_neg (by decide), if_pos rfl]
      rw [parseStrField_print]
      dsimp only [Option.bind]
      rw [parseNatField_print _ _ _ (head_printKey_not_digit _ _)]
      dsimp only [Option.bind]
      rw [parseMapField_print]
      dsimp only [Option.bind]
      rw [parseOptStrField_print_none]
      dsimp only [Option.bind]
      rw [parseEndBrace_print]
      rfl
    | some b =>
      simp only [printMessage, printHead, printOptStrField, List.append_assoc,
        List.cons_append, List.singleton_append, List.nil_append]
      rw [parseMessage.eq_def, parseLit_self]
      dsimp only
      rw [parseStr_print]
      dsimp only
      rw [if_neg (by decide), if_neg (by decide), if_neg (by decide),
        if_neg (by decide), if_neg (by decide), if_neg (by decide),
        if_neg (by decide), if_pos rfl]
      rw [parseStrField_print]
      dsimp only [Option.bind]
      rw [parseNatField_print _ _ _ (head_printKey_not_digit _ _)]
      dsimp only [Option.bind]
      rw [parseMapField_print]
      dsimp only [Option.bind]
      rw [parseOptStrField_print_some]
      dsimp only [Option.bind]
      rw [parseEndBrace_print]
      rfl
  | WsOpen f =>
    obtain ⟨sid, pth, hdrs⟩ := f
    simp only [printMessage, printHead, List.append_assoc, List.cons_append,
      List.singleton_append, List.nil_append]
    rw [parseMessage.eq_def, parseLit_self]
    dsimp only
    rw [parseStr_print]
    dsimp only
    rw [if_neg (by decide), if_neg (by decide), if_neg (by decide),
      if_neg (by decide), if_neg (by decide), if_neg (by decide),
      if_neg (by decide), if_neg (by decide), if_pos rfl]
    rw [parseStrField_print]
    dsimp only [Option.bind]
    rw [parseStrField_print]
    dsimp only [Option.bind]
    rw [parseMapField_print]
    dsimp only [Option.bind]
    rw [parseEndBrace_print]
    rfl
  | WsData f =>
    obtain ⟨sid, dat, isb⟩ := f
    simp only [printMessage, printHead, List.append_assoc, List.cons_append,
      List.singleton_append, List.nil_append]
    rw [parseMessage.eq_def, parseLit_self]
    dsimp only
    rw [parseStr_print]
    dsimp only
    rw [if_neg (by decide), if_neg (by decide), if_neg (by decide),
      if_neg (by decide), if_neg (by decide), if_neg (by decide),
      if_neg (by decide), if_neg (by decide), if_neg (by decide), if_pos rfl]
    rw [parseStrField_print]
    dsimp only [Option.bind]
    rw [parseStrField_print]
    dsimp only [Option.bind]
    rw [parseBoolField_print]
    dsimp only [Option.bind]
    rw [parseEndBrace_print]
    rfl
  | WsClose f =>
    obtain ⟨sid, code, reason⟩ := f
    simp only [printMessage, printHead, List.append_assoc, List.cons_append,
      List.singleton_append, List.nil_append]
    rw [parseMessage.eq_def, parseLit_self]
    dsimp only
    rw [parseStr_print]
    dsimp only
    rw [if_neg (by decide), if_neg (by decide), if_neg (by decide),
      if_neg (by decide), if_neg (by decide), if_neg (by decide),
      if_neg (by decide), if_neg (by decide), if_neg (by decide),
      if_neg (by decide), if_pos rfl]
    rw [parseStrField_print]
    dsimp only [Option.bind]
    rw [parseNullNatField_print _ _ _ (head_printKey_not_digit _ _)]
    dsimp only [Option.bind]
    rw [parseNullStrField_print]
    dsimp only [Option.bind]
    rw [parseEndBrace_print]
    rfl
  | SseOpen f =>
    obtain ⟨sid, mth, pth, hdrs⟩ := f
    simp only [printMessage, printHead, List.append_assoc, List.cons_append,
      List.singleton_append, List.nil_append]
    rw [parseMessage.eq_def, parseLit_self]
    dsimp only
    rw [parseStr_print]
    dsimp only
    rw [if_neg (by decide), if_neg (by decide), if_neg (by decide),
      if_neg (by decide), if_neg (by decide), if_neg (by decide),
      if_neg (by decide), if_neg (by decide), if_neg (by decide),
      if_neg (by decide), if_neg (by decide), if_pos rfl]
    rw [parseStrField_print]
    dsimp only [Option.bind]
    rw [parseStrField_print]
    dsimp only [Option.bind]
    rw [parseStrField_print]
    dsimp only [Option.bind]
    rw [parseMapField_print]
    dsimp only [Option.bind]
    rw [parseEndBrace_print]
    rfl
  | SseHeaders f =>
    obtain ⟨sid, status, hdrs⟩ := f
    simp only [printMessage, printHead, List.append_assoc, List.cons_append,
      List.singleton_append, List.nil_append]
    rw [parseMessage.eq_def, parseLit_self]
    dsimp only
    rw [parseStr_print]
    dsimp only
    rw [if_neg (by decide), if_neg (by decide), if_neg (by decide),
      if_neg (by decide), if_neg (by decide), if_neg (by decide),
      if_neg (by decide), if_neg (by decide), if_neg (by decide),
      if_neg (by decide), if_neg (by decide), if_neg (by decide), if_pos rfl]
    rw [parseStrField_print]
    dsimp only [Option.bind]
    rw [parseNatField_print _ _ _ (head_printKey_not_digit _ _)]
    dsimp only [Option.bind]
    rw [parseMapField_print]
    dsimp only [Option.bind]
    rw [parseEndBrace_print]
    rfl
  | SseData f =>
    obtain ⟨sid, dat⟩ := f
    simp only [printMessage, printHead, List.append_assoc, List.cons_append,
      List.singleton_append, List.nil_append]
    rw [parseMessage.eq_def, parseLit_self]
    dsimp only
    rw [parseStr_print]
    dsimp only
    rw [if_neg (by decide), if_neg (by decide), if_neg (by decide),
      if_neg (by decide), if_neg (by decide), if_neg (by decide),
      if_neg (by decide), if_neg (by decide), if_neg (by decide),
      if_neg (by decide), if_neg (by decide), if_neg (by decide),
      if_neg (by decide), if_pos rfl]
    rw [parseStrField_print]
    dsimp only [Option.bind]
    rw [parseStrField_print]
    dsimp only [Option.bind]
    rw [parseEndBrace_print]
    rfl
  | SseClose f =>
    obtain ⟨sid, err⟩ := f
    simp only [printMessage, printHead, List.append_assoc, List.cons_append,
      List.singleton_append, List.nil_append]
    rw [parseMessage.eq_def, parseLit_self]
    dsimp only
    rw [parseStr_print]
    dsimp only
    rw [if_neg (by decide), if_neg (by decide), if_neg (by decide),
      if_neg (by decide), if_neg (by decide), if_neg (by decide),
      if_neg (by decide), if_neg (by decide), if_neg (by decide),
      if_neg (by decide), if_neg (by decide), if_neg (by decide),
      if_neg (by decide), if_neg (by decide), if_pos rfl]
    rw [parseStrField_print]
    dsimp only [Option.bind]
    rw [parseNullStrField_print]
    dsimp only [Option.bind]
    rw [parseEndBrace_print]
    rfl

theorem beVal_be32 (n : Nat) (h : n < 2 ^ 32) :
    beVal (n / 2 ^ 24 % 256) (n / 2 ^ 16 % 256) (n / 2 ^ 8 % 256) (n % 256)
      = n := by
  unfold beVal
  omega

theorem map_ofNat_toNat (l : List Char) :
    (l.map Char.toNat).map Char.ofNat = l := by
  rw [List.map_map]
  have : Char.ofNat ∘ Char.toNat = id := funext Char.ofNat_toNat
  rw [this, List.map_id]

/-- C6: for every protocol message, decoding its encoding yields the message
back, and the consumed size reported by `decode_message` is exactly the
length of the encoded frame. (The length hypothesis reflects the `as u32`
cast of the source; every frame the transport accepts is far below it.) -/
theorem c6_encode_decode_roundtrip (m : Message)
    (h : (printMessage m).length < 2 ^ 32) :
    decode_message (encode_message m)
      = .ok (m, (encode_message m).length) := by
  have hlen : ((printMessage m).map Char.toNat).length
      = (printMessage m).length := List.length_map _ _
  have hmod : (printMessage m).length % 2 ^ 32 = (printMessage m).length :=
    Nat.mod_eq_of_lt h
  have htake : ((printMessage m).map Char.toNat).take (printMessage m).length
      = (printMessage m).map Char.toNat := by
    rw [← hlen]
    exact List.take_length _
  have hp := parseMessage_print m []
  rw [List.append_nil] at hp
  unfold encode_message decode_message
  dsimp only
  rw [hlen, hmod]
  rw [show be32 (printMessage m).length
    = [(printMessage m).length / 2 ^ 24 % 256,
       (printMessage m).length / 2 ^ 16 % 256,
       (printMessage m).length / 2 ^ 8 % 256,
       (printMessage m).length % 256] from rfl]
  simp only [List.cons_append, List.nil_append]
  rw [beVal_be32 _ h]
  rw [if_neg (by simp only [List.length_cons, hlen]; omega)]
  rw [htake, map_ofNat_toNat, hp]
  dsimp only
  simp [List.length_cons, hlen]
  omega

/-- Witness for C6 at a concrete `Register` message. -/
theorem c6_roundtrip_witness :
    decode_message (encode_message (.Register ⟨"key", "ws-A"⟩))
      = .ok (.Register ⟨"key", "ws-A"⟩,
          (encode_message (.Register ⟨"key", "ws-A"⟩)).length) :=
  c6_encode_decode_roundtrip (.Register ⟨"key", "ws-A"⟩) (by decide)

end TiflisTunnel
